import Mathlib

/-!
# The netlink relay of `communication_module/com_chan.c`

A shallow embedding of the relay kernel module: the wire record
`ComChan_Message_t`, the three static registry slots `DW_PID`, `MW_PID`,
`RW_PID`, the dispatcher `com_chan_recv`, its three handlers and
`sendMessage`.

Conventions.
* `uint32_t` / `uint64_t` fields are natural numbers; a record is well formed
  (`ComChan_Message.WF`) when each field is below its width.
* The `int` slots are integers; a `uint32_t` stored into a slot goes through
  `toInt32` (two's complement, as the kernel is compiled).
* The union `res_info` is kept as storage: `u0` is its bytes 0..7, `u1` its
  bytes 8..15 and `u2` its bytes 16..23, each read as a little-endian word
  (the x86-64 layout of the record: 12 bytes of header, 4 bytes of padding,
  24 bytes of union).  The members of the union are views of that storage.
* Kernel services the module calls (`find_get_pid`, `nlmsg_new`, `nlmsg_put`,
  `nlmsg_unicast`) are parameters, collected in `Kernel`.
* `printk` calls are not modelled.
* The record on the wire is its 40 bytes in that layout (`toBytes`, `ofBytes`).
* Of the two watchers, `memory_watcher_main.c` and `resource_watcher_main.c`,
  the receive handlers, `sendMessage`, the two probes and the query at the
  head of the memory watcher's loop are embedded; system calls are parameters.
-/

namespace ComChan

/-! ## Macro definitions and enumerators -/

@[reducible] def COM_NETLINK_KERNEL_SIG : Nat := 0x00
@[reducible] def COM_NETLINK_RW_SIG : Nat := 0xA5A5A5A5
@[reducible] def COM_NETLINK_DW_SIG : Nat := 0x10101010
@[reducible] def COM_NETLINK_MW_SIG : Nat := 0x11001100

@[reducible] def INVALID_RESOURCE_INFO_ID : Nat := 0
@[reducible] def DISK_RESOURCE_INFO : Nat := 1
@[reducible] def MEMORY_RESOURCE_INFO : Nat := 2
@[reducible] def SERVICE_RESOURCE_INFO : Nat := 3

/-! ## Data structures -/

/-- The record `ComChan_Message_t`, field by field in storage order. -/
structure ComChan_Message where
  /-- Field `serviceSig` (`uint32_t`), the signature of the sender. -/
  serviceSig : Nat
  /-- Field `resourceInfoID` (`uint32_t`). -/
  resourceInfoID : Nat
  /-- Field `flags` (`uint32_t`). -/
  flags : Nat
  /-- The four padding bytes between `flags` and the union. -/
  pad : Nat
  /-- Bytes 0..7 of the union `res_info`. -/
  u0 : Nat
  /-- Bytes 8..15 of the union `res_info`. -/
  u1 : Nat
  /-- Bytes 16..23 of the union `res_info` (the end of `serviceHostIP4` and the tail padding). -/
  u2 : Nat
  deriving DecidableEq

namespace ComChan_Message

/-- Every field of the record is below the width of its storage. -/
def WF (m : ComChan_Message) : Prop :=
  m.serviceSig < 2 ^ 32 ∧ m.resourceInfoID < 2 ^ 32 ∧ m.flags < 2 ^ 32 ∧ m.pad < 2 ^ 32 ∧
    m.u0 < 2 ^ 64 ∧ m.u1 < 2 ^ 64 ∧ m.u2 < 2 ^ 64

instance (m : ComChan_Message) : Decidable m.WF := by
  unfold WF; infer_instance

/-- View `res_info.diskInfo.systemMemory` (`uint64_t` at offset 0 of the union). -/
def diskInfo_systemMemory (m : ComChan_Message) : Nat := m.u0

/-- View `res_info.diskInfo.freeMemory` (`uint64_t` at offset 8 of the union). -/
def diskInfo_freeMemory (m : ComChan_Message) : Nat := m.u1

/-- View `res_info.memoryInfo.systemMemory` (`uint64_t` at offset 0 of the union). -/
def memoryInfo_systemMemory (m : ComChan_Message) : Nat := m.u0

/-- View `res_info.memoryInfo.freeMemory` (`uint64_t` at offset 8 of the union). -/
def memoryInfo_freeMemory (m : ComChan_Message) : Nat := m.u1

/-- View `res_info.serviceInfo.servicePID` (`uint32_t` at offset 0 of the union). -/
def serviceInfo_servicePID (m : ComChan_Message) : Nat := m.u0 % 2 ^ 32

/-- The record after `memset(&MSG, 0x00, sizeof(ComChan_Message_t))`. -/
def zeroed : ComChan_Message :=
  { serviceSig := 0, resourceInfoID := 0, flags := 0, pad := 0, u0 := 0, u1 := 0, u2 := 0 }

end ComChan_Message

/-- The macro `POPULATE_COM_CHAN_QUERY(MSG, R_ID)`: clear the whole record, then
stamp the kernel signature and the resource identifier. -/
def POPULATE_COM_CHAN_QUERY (R_ID : Nat) : ComChan_Message :=
  { ComChan_Message.zeroed with
    serviceSig := COM_NETLINK_KERNEL_SIG
    resourceInfoID := R_ID }

/-- Conversion of a `uint32_t` to `int` (two's complement wrap-around). -/
def toInt32 (n : Nat) : Int :=
  if n % 2 ^ 32 < 2 ^ 31 then ((n % 2 ^ 32 : Nat) : Int) else ((n % 2 ^ 32 : Nat) : Int) - 2 ^ 32

/-- The module's static variables `DW_PID`, `MW_PID`, `RW_PID` (all `int`). -/
structure Registry where
  /-- The slot of the disk watcher (DiskQueryClient). -/
  DW_PID : Int
  /-- The slot of the memory watcher (MemoryQueryClient). -/
  MW_PID : Int
  /-- The slot of the resource watcher (ResourceProvider). -/
  RW_PID : Int
  deriving DecidableEq

/-- The static initialisers: `DW_PID = 0`, `MW_PID = 0`, `RW_PID = 0`. -/
def Registry.init : Registry := { DW_PID := 0, MW_PID := 0, RW_PID := 0 }

/-- The kernel services the module calls, as seen at one received message. -/
structure Kernel where
  /-- Whether `find_get_pid(nr)` returns a non-NULL `struct pid`. -/
  find_get_pid : Int → Bool
  /-- Whether `nlmsg_new` returns a buffer (non-NULL). -/
  nlmsg_new : Bool
  /-- Whether `nlmsg_put` returns a header (non-NULL). -/
  nlmsg_put : Bool
  /-- The return value of `nlmsg_unicast(pNLSock, pSKB, portid)`. -/
  nlmsg_unicast : Int → Int

/-- How far one call of `sendMessage` got once its arguments were accepted. -/
inductive SendStatus where
  /-- The call `nlmsg_new` failed: nothing was built. -/
  | noBuffer
  /-- The call `nlmsg_put` failed: the buffer was released. -/
  | noHeader
  /-- The call `nlmsg_unicast` returned a negative value. -/
  | unicastFailed
  /-- The call `nlmsg_unicast` accepted the message. -/
  | delivered
  deriving DecidableEq

/-- One send the relay issues: the destination port, the record to copy into
the netlink payload, and how far the netlink calls got with it. -/
structure Outbound where
  /-- The argument `srvPID`. -/
  dst : Int
  /-- The record behind `pMessage`. -/
  msg : ComChan_Message
  /-- The outcome of the netlink calls. -/
  status : SendStatus
  deriving DecidableEq

/-! ## Utility functions -/

/-- The function `sendMessage(srvPID, pMessage)`; `none` is a call that returned
at one of its two argument guards. -/
def sendMessage (k : Kernel) (srvPID : Int) (pMessage : Option ComChan_Message) :
    Option Outbound :=
  if srvPID ≤ 0 then none
  else
    match pMessage with
    | none => none
    | some m =>
      if k.nlmsg_new = false then some { dst := srvPID, msg := m, status := .noBuffer }
      else if k.nlmsg_put = false then some { dst := srvPID, msg := m, status := .noHeader }
      else if k.nlmsg_unicast srvPID < 0 then
        some { dst := srvPID, msg := m, status := .unicastFailed }
      else some { dst := srvPID, msg := m, status := .delivered }

/-- The function `handleDWMessage(pMessage)`: the new static variables and the
message sent, if any. -/
def handleDWMessage (k : Kernel) (st : Registry) (pMessage : Option ComChan_Message) :
    Registry × Option Outbound :=
  match pMessage with
  | none => (st, none)
  | some m =>
    if m.resourceInfoID = DISK_RESOURCE_INFO then
      if st.RW_PID > 0 ∧ k.find_get_pid st.RW_PID = true then
        (st, sendMessage k st.RW_PID (some (POPULATE_COM_CHAN_QUERY DISK_RESOURCE_INFO)))
      else ({ st with RW_PID := 0 }, none)
    else if m.resourceInfoID = SERVICE_RESOURCE_INFO then
      if st.DW_PID = 0 ∨ k.find_get_pid st.DW_PID = true then
        ({ st with DW_PID := toInt32 m.serviceInfo_servicePID }, none)
      else (st, none)
    else (st, none)

/-- The function `handleMWMessage(pMessage)`. -/
def handleMWMessage (k : Kernel) (st : Registry) (pMessage : Option ComChan_Message) :
    Registry × Option Outbound :=
  match pMessage with
  | none => (st, none)
  | some m =>
    if m.resourceInfoID = MEMORY_RESOURCE_INFO then
      if st.RW_PID > 0 ∧ k.find_get_pid st.RW_PID = true then
        (st, sendMessage k st.RW_PID (some (POPULATE_COM_CHAN_QUERY MEMORY_RESOURCE_INFO)))
      else ({ st with RW_PID := 0 }, none)
    else if m.resourceInfoID = SERVICE_RESOURCE_INFO then
      if st.MW_PID = 0 ∨ k.find_get_pid st.MW_PID = true then
        ({ st with MW_PID := toInt32 m.serviceInfo_servicePID }, none)
      else (st, none)
    else (st, none)

/-- The function `handleRWMessage(pMessage)`.  The local record `resInfo` is not
initialised before five of its fields are assigned; `stack` is what it held. -/
def handleRWMessage (k : Kernel) (stack : ComChan_Message) (st : Registry)
    (pMessage : Option ComChan_Message) : Registry × Option Outbound :=
  match pMessage with
  | none => (st, none)
  | some m =>
    if m.resourceInfoID = DISK_RESOURCE_INFO then
      if st.DW_PID > 0 ∧ k.find_get_pid st.DW_PID = true then
        (st, sendMessage k st.DW_PID (some
          { stack with
            serviceSig := COM_NETLINK_KERNEL_SIG
            resourceInfoID := DISK_RESOURCE_INFO
            flags := 0
            u0 := m.diskInfo_systemMemory
            u1 := m.diskInfo_freeMemory }))
      else ({ st with DW_PID := 0 }, none)
    else if m.resourceInfoID = MEMORY_RESOURCE_INFO then
      if st.MW_PID > 0 ∧ k.find_get_pid st.MW_PID = true then
        (st, sendMessage k st.MW_PID (some
          { stack with
            serviceSig := COM_NETLINK_KERNEL_SIG
            resourceInfoID := MEMORY_RESOURCE_INFO
            flags := 0
            u0 := m.memoryInfo_systemMemory
            u1 := m.memoryInfo_freeMemory }))
      else ({ st with MW_PID := 0 }, none)
    else if m.resourceInfoID = SERVICE_RESOURCE_INFO then
      if st.RW_PID = 0 ∨ k.find_get_pid st.RW_PID = false then
        ({ st with RW_PID := toInt32 m.serviceInfo_servicePID }, none)
      else (st, none)
    else (st, none)

/-- The function `com_chan_recv(pSKB)`, the netlink input callback; `pSKB` is
given by the record in its payload, `none` for a NULL buffer. -/
def com_chan_recv (k : Kernel) (stack : ComChan_Message) (st : Registry)
    (pSKB : Option ComChan_Message) : Registry × Option Outbound :=
  match pSKB with
  | none => (st, none)
  | some m =>
    if m.serviceSig = COM_NETLINK_DW_SIG then handleDWMessage k st (some m)
    else if m.serviceSig = COM_NETLINK_MW_SIG then handleMWMessage k st (some m)
    else if m.serviceSig = COM_NETLINK_RW_SIG then handleRWMessage k stack st (some m)
    else (st, none)

/-- A kernel in which every identifier is live and every netlink call succeeds. -/
def Kernel.allLive : Kernel :=
  { find_get_pid := fun _ => true, nlmsg_new := true, nlmsg_put := true,
    nlmsg_unicast := fun _ => 0 }

/-- A `SERVICE_RESOURCE_INFO` record as a watcher builds it: signature `sig`,
process identifier `pid`, cleared host text. -/
def announcement (sig pid : Nat) : ComChan_Message :=
  { ComChan_Message.zeroed with
    serviceSig := sig
    resourceInfoID := SERVICE_RESOURCE_INFO
    u0 := pid }

/-- A query record as a watcher builds it: signature `sig`, resource `kind`,
everything else cleared. -/
def query (sig kind : Nat) : ComChan_Message :=
  { ComChan_Message.zeroed with
    serviceSig := sig
    resourceInfoID := kind }

/-- A resource record as the resource watcher builds it: its signature,
resource `kind`, and the measured `total` and `free`. -/
def resourceInfo (kind total free : Nat) : ComChan_Message :=
  { ComChan_Message.zeroed with
    serviceSig := COM_NETLINK_RW_SIG
    resourceInfoID := kind
    u0 := total
    u1 := free }

/-- A kernel in which every identifier is live, buffers are available, and
`nlmsg_unicast` returns `-ECONNREFUSED`. -/
def Kernel.sendFails : Kernel :=
  { find_get_pid := fun _ => true, nlmsg_new := true, nlmsg_put := true,
    nlmsg_unicast := fun _ => -111 }

/-- A kernel in which no identifier is live. -/
def Kernel.noneLive : Kernel :=
  { find_get_pid := fun _ => false, nlmsg_new := true, nlmsg_put := true,
    nlmsg_unicast := fun _ => 0 }

/-! ## The record on the wire -/

/-- The value of `sizeof(ComChan_Message_t)`, which is `COM_NETLINK_MAX_PAYLOAD`. -/
@[reducible] def COM_NETLINK_MAX_PAYLOAD : Nat := 40

/-- The `k` bytes of `n`, least significant first. -/
def leBytes : Nat → Nat → List Nat
  | 0, _ => []
  | k + 1, n => n % 256 :: leBytes k (n / 256)

/-- The number whose bytes, least significant first, are `bs`. -/
def leValue : List Nat → Nat
  | [] => 0
  | b :: bs => b + 256 * leValue bs

/-- The bytes of the record in memory, which
`memcpy(nlmsg_data(pNLMsgHdr), pMessage, COM_NETLINK_MAX_PAYLOAD)` copies into
the netlink payload. -/
def ComChan_Message.toBytes (m : ComChan_Message) : List Nat :=
  leBytes 4 m.serviceSig ++ (leBytes 4 m.resourceInfoID ++ (leBytes 4 m.flags ++
    (leBytes 4 m.pad ++ (leBytes 8 m.u0 ++ (leBytes 8 m.u1 ++ leBytes 8 m.u2)))))

/-- The record a receiver reads through `(ComChan_Message_t *)nlmsg_data(pNLHdr)`
from the payload bytes `bs`. -/
def ComChan_Message.ofBytes (bs : List Nat) : ComChan_Message :=
  { serviceSig := leValue (bs.take 4)
    resourceInfoID := leValue ((bs.drop 4).take 4)
    flags := leValue ((bs.drop 8).take 4)
    pad := leValue ((bs.drop 12).take 4)
    u0 := leValue ((bs.drop 16).take 8)
    u1 := leValue ((bs.drop 24).take 8)
    u2 := leValue ((bs.drop 32).take 8) }

/-- View `res_info.serviceInfo.serviceHostIP4` (`char[16]` at offset 4 of the
union, offset 20 of the record). -/
def ComChan_Message.serviceInfo_serviceHostIP4 (m : ComChan_Message) : List Nat :=
  (m.toBytes.drop 20).take 16

/-! ## Sequences of received buffers -/

/-- One call of the netlink input callback: the kernel services as they answer
during the call, what the stack holds, and the buffer received. -/
structure Event where
  /-- The kernel services during the call. -/
  k : Kernel
  /-- What the local record of `handleRWMessage` holds on entry. -/
  stack : ComChan_Message
  /-- The buffer handed to `com_chan_recv`. -/
  pSKB : Option ComChan_Message

/-- The static variables after `com_chan_recv` has run on each event in turn. -/
def run (st : Registry) : List Event → Registry
  | [] => st
  | e :: es => run (com_chan_recv e.k e.stack st e.pSKB).1 es

/-- The event carries a `SERVICE_RESOURCE_INFO` record with signature `sig`. -/
def Event.announces (sig : Nat) (e : Event) : Prop :=
  ∃ m, e.pSKB = some m ∧ m.serviceSig = sig ∧ m.resourceInfoID = SERVICE_RESOURCE_INFO

/-- The event carries a `SERVICE_RESOURCE_INFO` record with signature `sig`
whose process identifier, stored into an `int`, is `v`. -/
def Event.announcesPID (sig : Nat) (v : Int) (e : Event) : Prop :=
  ∃ m, e.pSKB = some m ∧ m.serviceSig = sig ∧ m.resourceInfoID = SERVICE_RESOURCE_INFO ∧
    toInt32 m.serviceInfo_servicePID = v

/-- A stack that holds leftovers of earlier calls. -/
def dirtyStack : ComChan_Message :=
  { serviceSig := 0x11111111, resourceInfoID := 0x22222222, flags := 0x33333333,
    pad := 0xDEADBEEF, u0 := 0x4444444444444444, u1 := 0x5555555555555555,
    u2 := 0x0807060504030201 }

/-- The buffers of the end-to-end scenario, every identifier live: the resource
watcher announces 500, the disk watcher announces 200 and then queries. -/
def scenario : List Event :=
  [ { k := Kernel.allLive, stack := ComChan_Message.zeroed,
      pSKB := some (announcement COM_NETLINK_RW_SIG 500) },
    { k := Kernel.allLive, stack := ComChan_Message.zeroed,
      pSKB := some (announcement COM_NETLINK_DW_SIG 200) },
    { k := Kernel.allLive, stack := ComChan_Message.zeroed,
      pSKB := some (query COM_NETLINK_DW_SIG DISK_RESOURCE_INFO) } ]

/-- What a send shows of the fields the relay sets: the destination, the
outcome, and the signature, resource identifier, flags, `systemMemory` and
`freeMemory` of the record. -/
def Outbound.declared (o : Outbound) : Int × SendStatus × Nat × Nat × Nat × Nat × Nat :=
  (o.dst, o.status, o.msg.serviceSig, o.msg.resourceInfoID, o.msg.flags,
    o.msg.diskInfo_systemMemory, o.msg.diskInfo_freeMemory)

/-! ## The memory watcher (`memory_watcher_main.c`) -/

namespace MemoryWatcher

/-- The macro `RESOURCE_QUERY_TIMEOUT`, in seconds. -/
@[reducible] def RESOURCE_QUERY_TIMEOUT : Int := 5

/-- The function `sendMessage(sock, pDstAddr, pNLMsgHdr, pMessage)`: its return
value and the record handed to `sendmsg`, if the call got that far.  `sendmsg`
is the return value of the system call; a pointer is given by whether it is
non-NULL. -/
def sendMessage (sendmsg : Int) (sock : Int) (pDstAddr pNLMsgHdr : Bool)
    (pMessage : Option ComChan_Message) : Int × Option ComChan_Message :=
  if sock ≤ 0 then (-1, none)
  else if pDstAddr = false ∨ pNLMsgHdr = false then (-1, none)
  else
    match pMessage with
    | none => (-1, none)
    | some m => (sendmsg, some m)

/-- The function `handleResponseMsg(sock, pNLMsgHdr)`: its return value and the
two numbers it prints as memory information, if it prints.  `recvmsg` is the
return value of the system call and `rx` the record in the buffer after it. -/
def handleResponseMsg (recvmsg : Int) (rx : ComChan_Message) (sock : Int)
    (pNLMsgHdr : Bool) : Int × Option (Nat × Nat) :=
  if sock ≤ 0 then (-1, none)
  else if pNLMsgHdr = false then (-1, none)
  else if recvmsg < 0 then (recvmsg, none)
  else if rx.serviceSig = COM_NETLINK_KERNEL_SIG then
    if rx.resourceInfoID = MEMORY_RESOURCE_INFO then
      (recvmsg, some (rx.memoryInfo_systemMemory, rx.memoryInfo_freeMemory))
    else (recvmsg, none)
  else (recvmsg, none)

/-- The head of one iteration of the `while` loop of `main`: the new
`queryTimeout` and the record handed to `sendmsg`, if any.  `now` is what
`_GetCurrentTime()` returns in the test and `later` what it returns after the
send. -/
def main_query (sendmsg : Int) (sock : Int) (queryTimeout now later : Int) :
    Int × Option ComChan_Message :=
  if queryTimeout < now then
    (later + RESOURCE_QUERY_TIMEOUT,
      (sendMessage sendmsg sock true true (some
        { ComChan_Message.zeroed with
          serviceSig := COM_NETLINK_MW_SIG
          resourceInfoID := MEMORY_RESOURCE_INFO
          flags := 0 })).2)
  else (queryTimeout, none)

end MemoryWatcher

/-! ## The resource watcher (`resource_watcher_main.c`) -/

namespace ResourceWatcher

/-- The record `RW_DiskInfo_t`. -/
structure RW_DiskInfo where
  /-- Field `systemMemory` (`uint64_t`). -/
  systemMemory : Nat
  /-- Field `freeMemory` (`uint64_t`). -/
  freeMemory : Nat
  deriving DecidableEq

/-- The record `RW_MemoryInfo_t`. -/
structure RW_MemoryInfo where
  /-- Field `systemMemory` (`uint64_t`). -/
  systemMemory : Nat
  /-- Field `freeMemory` (`uint64_t`). -/
  freeMemory : Nat
  deriving DecidableEq

/-- The system calls the resource watcher makes, as they answer during one call
of `handleRequestMsg`. -/
structure Sys where
  /-- The fields `f_bsize`, `f_blocks`, `f_bfree` that `statvfs` fills in, or
  `none` when it returns a negative value. -/
  statvfs : Option (Nat × Nat × Nat)
  /-- The return value of `sysconf(_SC_PAGESIZE)`. -/
  sysconf_SC_PAGESIZE : Int
  /-- The return value of `sysconf(_SC_PHYS_PAGES)`. -/
  sysconf_SC_PHYS_PAGES : Int
  /-- The return value of `sysconf(_SC_AVPHYS_PAGES)`. -/
  sysconf_SC_AVPHYS_PAGES : Int
  /-- The return value of `sendmsg`. -/
  sendmsg : Int

/-- Conversion of an `int64_t` to `uint64_t`. -/
def toUInt64 (i : Int) : Nat := (i % 2 ^ 64).toNat

/-- The function `getDiskMemoryInfo(pDiskInfo)`: its return value and the record
behind the pointer afterwards. -/
def getDiskMemoryInfo (sys : Sys) (pDiskInfo : Option RW_DiskInfo) :
    Int × Option RW_DiskInfo :=
  match pDiskInfo with
  | none => (-1, none)
  | some d =>
    match sys.statvfs with
    | none => (-1, some d)
    | some (f_bsize, f_blocks, f_bfree) =>
      (0, some { systemMemory := (f_bsize * f_blocks) % 2 ^ 64
                 freeMemory := (f_bsize * f_bfree) % 2 ^ 64 })

/-- The function `getSystemMemoryInfo(pMemoryInfo)`: its return value and the
record behind the pointer afterwards. -/
def getSystemMemoryInfo (sys : Sys) (pMemoryInfo : Option RW_MemoryInfo) :
    Int × Option RW_MemoryInfo :=
  match pMemoryInfo with
  | none => (-1, none)
  | some d =>
    if sys.sysconf_SC_PAGESIZE < 1 then (-1, some d)
    else if sys.sysconf_SC_PHYS_PAGES < 0 then (-1, some d)
    else if sys.sysconf_SC_AVPHYS_PAGES < 0 then
      (-1, some { d with
        systemMemory := toUInt64 (sys.sysconf_SC_PHYS_PAGES * sys.sysconf_SC_PAGESIZE) })
    else
      (0, some { systemMemory := toUInt64 (sys.sysconf_SC_PHYS_PAGES * sys.sysconf_SC_PAGESIZE)
                 freeMemory :=
                   toUInt64 (sys.sysconf_SC_AVPHYS_PAGES * sys.sysconf_SC_PAGESIZE) })

/-- The function `sendMessage(sock, pDstAddr, pNLMsgHdr, pMessage)`: its return
value and the record handed to `sendmsg`, if the call got that far. -/
def sendMessage (sys : Sys) (sock : Int) (pDstAddr pNLMsgHdr : Bool)
    (pMessage : Option ComChan_Message) : Int × Option ComChan_Message :=
  if sock ≤ 0 then (-1, none)
  else if pDstAddr = false ∨ pNLMsgHdr = false then (-1, none)
  else
    match pMessage with
    | none => (-1, none)
    | some m => (sys.sendmsg, some m)

/-- The function `handleRequestMsg(sock, pDstAddr, pNLMsgHdr)`: its return value
and the record handed to `sendmsg`, if any.  `recvmsg` is the return value of
the system call, `rx` the record in the buffer after it, and `stack` what the
local record `resWatcherMsg` holds on entry. -/
def handleRequestMsg (sys : Sys) (stack : ComChan_Message) (recvmsg : Int)
    (rx : ComChan_Message) (sock : Int) (pDstAddr pNLMsgHdr : Bool) :
    Int × Option ComChan_Message :=
  if sock ≤ 0 then (-1, none)
  else if pDstAddr = false ∨ pNLMsgHdr = false then (-1, none)
  else if recvmsg < 0 then (recvmsg, none)
  else if rx.serviceSig = COM_NETLINK_KERNEL_SIG then
    if rx.resourceInfoID = DISK_RESOURCE_INFO then
      match getDiskMemoryInfo sys
          (some { systemMemory := stack.u0, freeMemory := stack.u1 }) with
      | (ret, some d) =>
        if ret = 0 then
          (recvmsg, (sendMessage sys sock pDstAddr pNLMsgHdr (some
            { stack with
              serviceSig := COM_NETLINK_RW_SIG
              resourceInfoID := DISK_RESOURCE_INFO
              flags := 0
              u0 := d.systemMemory
              u1 := d.freeMemory })).2)
        else (recvmsg, none)
      | (_, none) => (recvmsg, none)
    else if rx.resourceInfoID = MEMORY_RESOURCE_INFO then
      match getSystemMemoryInfo sys
          (some { systemMemory := stack.u0, freeMemory := stack.u1 }) with
      | (ret, some d) =>
        if ret = 0 then
          (recvmsg, (sendMessage sys sock pDstAddr pNLMsgHdr (some
            { stack with
              serviceSig := COM_NETLINK_RW_SIG
              resourceInfoID := MEMORY_RESOURCE_INFO
              flags := 0
              u0 := d.systemMemory
              u1 := d.freeMemory })).2)
        else (recvmsg, none)
      | (_, none) => (recvmsg, none)
    else (recvmsg, none)
  else (recvmsg, none)

/-- A system where `statvfs` reports 4096-byte blocks, 1000 of them, 400 free,
and `sysconf` reports 4096-byte pages, 2000 of them, 500 available. -/
def Sys.healthy : Sys :=
  { statvfs := some (4096, 1000, 400), sysconf_SC_PAGESIZE := 4096,
    sysconf_SC_PHYS_PAGES := 2000, sysconf_SC_AVPHYS_PAGES := 500, sendmsg := 56 }

/-- A system where `statvfs` fails and `sysconf(_SC_AVPHYS_PAGES)` returns -1. -/
def Sys.failing : Sys :=
  { statvfs := none, sysconf_SC_PAGESIZE := 4096,
    sysconf_SC_PHYS_PAGES := 2000, sysconf_SC_AVPHYS_PAGES := -1, sendmsg := 56 }

end ResourceWatcher

/-! ## Facts about the conversions -/

theorem toInt32_of_lt {n : Nat} (h : n < 2 ^ 31) : toInt32 n = (n : Int) := by
  have h32 : n % 2 ^ 32 = n := Nat.mod_eq_of_lt (by omega)
  unfold toInt32
  rw [h32, if_pos h]

theorem toInt32_emod {n : Nat} (h : n < 2 ^ 32) : toInt32 n % 2 ^ 32 = (n : Int) := by
  have h32 : n % 2 ^ 32 = n := Nat.mod_eq_of_lt h
  unfold toInt32
  rw [h32]
  split <;> omega

theorem servicePID_lt (m : ComChan_Message) : m.serviceInfo_servicePID < 2 ^ 32 := by
  unfold ComChan_Message.serviceInfo_servicePID
  exact Nat.mod_lt _ (by norm_num)

/-! ## The handlers, case by case -/

theorem sendMessage_pos (k : Kernel) (d : Int) (m : ComChan_Message) (hd : 0 < d) :
    ∃ s, sendMessage k d (some m) = some { dst := d, msg := m, status := s } ∧
      (k.nlmsg_new = true → k.nlmsg_put = true → 0 ≤ k.nlmsg_unicast d → s = .delivered) ∧
      (k.nlmsg_unicast d < 0 → s ≠ .delivered) := by
  have hd' : ¬ d ≤ 0 := by omega
  unfold sendMessage
  rw [if_neg hd']
  by_cases h1 : k.nlmsg_new = false
  · exact ⟨.noBuffer, by simp [h1], by simp [h1], by simp⟩
  · by_cases h2 : k.nlmsg_put = false
    · exact ⟨.noHeader, by simp [h1, h2], by simp [h2], by simp⟩
    · by_cases h3 : k.nlmsg_unicast d < 0
      · exact ⟨.unicastFailed, by simp [h1, h2, h3], by intros; omega, by simp⟩
      · exact ⟨.delivered, by simp [h1, h2, h3], by simp, by intro h; exact absurd h h3⟩

theorem recv_DW_announce (k : Kernel) (stack : ComChan_Message) (st : Registry)
    (m : ComChan_Message) (hsig : m.serviceSig = COM_NETLINK_DW_SIG)
    (hkind : m.resourceInfoID = SERVICE_RESOURCE_INFO) :
    com_chan_recv k stack st (some m) =
      (if st.DW_PID = 0 ∨ k.find_get_pid st.DW_PID = true
        then { st with DW_PID := toInt32 m.serviceInfo_servicePID } else st, none) := by
  by_cases h : st.DW_PID = 0 ∨ k.find_get_pid st.DW_PID = true <;>
    simp [com_chan_recv, handleDWMessage, hsig, hkind, h]

theorem recv_MW_announce (k : Kernel) (stack : ComChan_Message) (st : Registry)
    (m : ComChan_Message) (hsig : m.serviceSig = COM_NETLINK_MW_SIG)
    (hkind : m.resourceInfoID = SERVICE_RESOURCE_INFO) :
    com_chan_recv k stack st (some m) =
      (if st.MW_PID = 0 ∨ k.find_get_pid st.MW_PID = true
        then { st with MW_PID := toInt32 m.serviceInfo_servicePID } else st, none) := by
  by_cases h : st.MW_PID = 0 ∨ k.find_get_pid st.MW_PID = true <;>
    simp [com_chan_recv, handleMWMessage, hsig, hkind, h]

theorem recv_RW_announce (k : Kernel) (stack : ComChan_Message) (st : Registry)
    (m : ComChan_Message) (hsig : m.serviceSig = COM_NETLINK_RW_SIG)
    (hkind : m.resourceInfoID = SERVICE_RESOURCE_INFO) :
    com_chan_recv k stack st (some m) =
      (if st.RW_PID = 0 ∨ k.find_get_pid st.RW_PID = false
        then { st with RW_PID := toInt32 m.serviceInfo_servicePID } else st, none) := by
  by_cases h : st.RW_PID = 0 ∨ k.find_get_pid st.RW_PID = false <;>
    simp [com_chan_recv, handleRWMessage, hsig, hkind, h]

theorem recv_DW_disk (k : Kernel) (stack : ComChan_Message) (st : Registry)
    (m : ComChan_Message) (hsig : m.serviceSig = COM_NETLINK_DW_SIG)
    (hkind : m.resourceInfoID = DISK_RESOURCE_INFO) :
    com_chan_recv k stack st (some m) =
      if st.RW_PID > 0 ∧ k.find_get_pid st.RW_PID = true
        then (st, sendMessage k st.RW_PID (some (POPULATE_COM_CHAN_QUERY DISK_RESOURCE_INFO)))
        else ({ st with RW_PID := 0 }, none) := by
  simp [com_chan_recv, handleDWMessage, hsig, hkind]

theorem recv_MW_memory (k : Kernel) (stack : ComChan_Message) (st : Registry)
    (m : ComChan_Message) (hsig : m.serviceSig = COM_NETLINK_MW_SIG)
    (hkind : m.resourceInfoID = MEMORY_RESOURCE_INFO) :
    com_chan_recv k stack st (some m) =
      if st.RW_PID > 0 ∧ k.find_get_pid st.RW_PID = true
        then (st, sendMessage k st.RW_PID (some (POPULATE_COM_CHAN_QUERY MEMORY_RESOURCE_INFO)))
        else ({ st with RW_PID := 0 }, none) := by
  simp [com_chan_recv, handleMWMessage, hsig, hkind]

theorem recv_RW_disk (k : Kernel) (stack : ComChan_Message) (st : Registry)
    (m : ComChan_Message) (hsig : m.serviceSig = COM_NETLINK_RW_SIG)
    (hkind : m.resourceInfoID = DISK_RESOURCE_INFO) :
    com_chan_recv k stack st (some m) =
      if st.DW_PID > 0 ∧ k.find_get_pid st.DW_PID = true
        then (st, sendMessage k st.DW_PID (some
          { stack with
            serviceSig := COM_NETLINK_KERNEL_SIG
            resourceInfoID := DISK_RESOURCE_INFO
            flags := 0
            u0 := m.diskInfo_systemMemory
            u1 := m.diskInfo_freeMemory }))
        else ({ st with DW_PID := 0 }, none) := by
  simp [com_chan_recv, handleRWMessage, hsig, hkind]

theorem recv_RW_memory (k : Kernel) (stack : ComChan_Message) (st : Registry)
    (m : ComChan_Message) (hsig : m.serviceSig = COM_NETLINK_RW_SIG)
    (hkind : m.resourceInfoID = MEMORY_RESOURCE_INFO) :
    com_chan_recv k stack st (some m) =
      if st.MW_PID > 0 ∧ k.find_get_pid st.MW_PID = true
        then (st, sendMessage k st.MW_PID (some
          { stack with
            serviceSig := COM_NETLINK_KERNEL_SIG
            resourceInfoID := MEMORY_RESOURCE_INFO
            flags := 0
            u0 := m.memoryInfo_systemMemory
            u1 := m.memoryInfo_freeMemory }))
        else ({ st with MW_PID := 0 }, none) := by
  simp [com_chan_recv, handleRWMessage, hsig, hkind]

/-! ## Registration -/

/-- C1: a `SERVICE_RESOURCE_INFO` message with the resource watcher's signature
carrying process identifier `p` stores `p` (as the `int` the slot holds) in
`RW_PID` exactly when `RW_PID` was 0 or `find_get_pid(RW_PID)` is NULL, and
otherwise leaves `RW_PID` as it was; the other two slots are untouched and
nothing is sent.  The stored `int` has the 32 bits of `p`, and is `p` itself
below 2^31. -/
theorem C1_rw_announcement (k : Kernel) (stack : ComChan_Message) (st : Registry)
    (m : ComChan_Message) (p : Nat)
    (hsig : m.serviceSig = COM_NETLINK_RW_SIG)
    (hkind : m.resourceInfoID = SERVICE_RESOURCE_INFO)
    (hp : m.serviceInfo_servicePID = p) :
    (com_chan_recv k stack st (some m)).1.RW_PID =
        (if st.RW_PID = 0 ∨ k.find_get_pid st.RW_PID = false then toInt32 p else st.RW_PID) ∧
      (com_chan_recv k stack st (some m)).1.DW_PID = st.DW_PID ∧
      (com_chan_recv k stack st (some m)).1.MW_PID = st.MW_PID ∧
      (com_chan_recv k stack st (some m)).2 = none ∧
      toInt32 p % 2 ^ 32 = (p : Int) ∧
      (p < 2 ^ 31 → toInt32 p = (p : Int)) := by
  have hlt : p < 2 ^ 32 := hp ▸ servicePID_lt m
  rw [recv_RW_announce k stack st m hsig hkind, hp]
  refine ⟨?_, ?_, ?_, rfl, toInt32_emod hlt, fun h => toInt32_of_lt h⟩
  all_goals by_cases h : st.RW_PID = 0 ∨ k.find_get_pid st.RW_PID = false <;> simp only [h, if_true, if_false]

/-- C1, at a registry whose resource-watcher slot is empty, at one whose slot
holds a live identifier, and at one whose slot holds a dead identifier. -/
theorem C1_rw_announcement_witness :
    (com_chan_recv Kernel.allLive ComChan_Message.zeroed Registry.init
        (some (announcement COM_NETLINK_RW_SIG 500))).1.RW_PID = 500 ∧
      (com_chan_recv Kernel.allLive ComChan_Message.zeroed
        { DW_PID := 0, MW_PID := 0, RW_PID := 500 }
        (some (announcement COM_NETLINK_RW_SIG 600))).1.RW_PID = 500 ∧
      (com_chan_recv Kernel.noneLive ComChan_Message.zeroed
        { DW_PID := 0, MW_PID := 0, RW_PID := 500 }
        (some (announcement COM_NETLINK_RW_SIG 600))).1.RW_PID = 600 := by
  refine ⟨?_, ?_, ?_⟩
  · have h := (C1_rw_announcement Kernel.allLive ComChan_Message.zeroed Registry.init
      (announcement COM_NETLINK_RW_SIG 500) 500 rfl rfl (by decide)).1
    rw [h]; decide
  · have h := (C1_rw_announcement Kernel.allLive ComChan_Message.zeroed
      { DW_PID := 0, MW_PID := 0, RW_PID := 500 }
      (announcement COM_NETLINK_RW_SIG 600) 600 rfl rfl (by decide)).1
    rw [h]; decide
  · have h := (C1_rw_announcement Kernel.noneLive ComChan_Message.zeroed
      { DW_PID := 0, MW_PID := 0, RW_PID := 500 }
      (announcement COM_NETLINK_RW_SIG 600) 600 rfl rfl (by decide)).1
    rw [h]; decide

/-- C2 (the code at the failing input): from the empty registry, with every
identifier live, two announcements of the disk watcher carrying 200 and then
300 leave `DW_PID` at 300, not at 200; two announcements of the memory
watcher do the same to `MW_PID`. -/
theorem C2_second_announcement_overwrites :
    (com_chan_recv Kernel.allLive ComChan_Message.zeroed
        (com_chan_recv Kernel.allLive ComChan_Message.zeroed Registry.init
          (some (announcement COM_NETLINK_DW_SIG 200))).1
        (some (announcement COM_NETLINK_DW_SIG 300))).1.DW_PID = 300 ∧
      (com_chan_recv Kernel.allLive ComChan_Message.zeroed
        (com_chan_recv Kernel.allLive ComChan_Message.zeroed Registry.init
          (some (announcement COM_NETLINK_MW_SIG 200))).1
        (some (announcement COM_NETLINK_MW_SIG 300))).1.MW_PID = 300 := by
  decide

/-- C3 (the code at the failing input): with `DW_PID = 200` and no identifier
live, an announcement of the disk watcher carrying 300 leaves `DW_PID` at 200,
not at 300; the same holds of `MW_PID` and the memory watcher. -/
theorem C3_dead_holder_keeps_slot :
    (com_chan_recv Kernel.noneLive ComChan_Message.zeroed
        { DW_PID := 200, MW_PID := 0, RW_PID := 0 }
        (some (announcement COM_NETLINK_DW_SIG 300))).1.DW_PID = 200 ∧
      (com_chan_recv Kernel.noneLive ComChan_Message.zeroed
        { DW_PID := 0, MW_PID := 200, RW_PID := 0 }
        (some (announcement COM_NETLINK_MW_SIG 300))).1.MW_PID = 200 := by
  decide

/-! ## Forwarding -/

/-- C4: a `DISK_RESOURCE_INFO` message with the disk watcher's signature, or a
`MEMORY_RESOURCE_INFO` message with the memory watcher's signature, whatever
else it holds: when `RW_PID` is a positive identifier `d` that
`find_get_pid` finds, the relay issues exactly one send, to `d`; the record
sent has the kernel's signature (0), the received resource identifier, and
flags, padding and whole payload zero; the three slots are left as they were.
The record is delivered whenever the three netlink calls succeed. -/
theorem C4_query_forwarded (k : Kernel) (stack : ComChan_Message) (st : Registry)
    (m : ComChan_Message) (d : Int)
    (hcase : (m.serviceSig = COM_NETLINK_DW_SIG ∧ m.resourceInfoID = DISK_RESOURCE_INFO) ∨
      (m.serviceSig = COM_NETLINK_MW_SIG ∧ m.resourceInfoID = MEMORY_RESOURCE_INFO))
    (hslot : st.RW_PID = d) (hd : 0 < d) (hlive : k.find_get_pid d = true) :
    ∃ s, com_chan_recv k stack st (some m) =
        (st, some
          { dst := d
            msg :=
              { serviceSig := COM_NETLINK_KERNEL_SIG
                resourceInfoID := m.resourceInfoID
                flags := 0, pad := 0, u0 := 0, u1 := 0, u2 := 0 }
            status := s }) ∧
      (k.nlmsg_new = true → k.nlmsg_put = true → 0 ≤ k.nlmsg_unicast d → s = .delivered) := by
  have hcond : st.RW_PID > 0 ∧ k.find_get_pid st.RW_PID = true := by
    rw [hslot]; exact ⟨hd, hlive⟩
  rcases hcase with ⟨hsig, hkind⟩ | ⟨hsig, hkind⟩
  · obtain ⟨s, hs, hok, _⟩ :=
      sendMessage_pos k d (POPULATE_COM_CHAN_QUERY DISK_RESOURCE_INFO) hd
    refine ⟨s, ?_, hok⟩
    rw [recv_DW_disk k stack st m hsig hkind, if_pos hcond, hslot, hs, hkind]
    rfl
  · obtain ⟨s, hs, hok, _⟩ :=
      sendMessage_pos k d (POPULATE_COM_CHAN_QUERY MEMORY_RESOURCE_INFO) hd
    refine ⟨s, ?_, hok⟩
    rw [recv_MW_memory k stack st m hsig hkind, if_pos hcond, hslot, hs, hkind]
    rfl

/-- C4, at a disk query whose flags and payload are not zero. -/
theorem C4_query_forwarded_witness :
    ∃ s, com_chan_recv Kernel.allLive ComChan_Message.zeroed
        { DW_PID := 200, MW_PID := 0, RW_PID := 500 }
        (some { serviceSig := COM_NETLINK_DW_SIG, resourceInfoID := DISK_RESOURCE_INFO,
                flags := 7, pad := 1, u0 := 11, u1 := 12, u2 := 13 }) =
        ({ DW_PID := 200, MW_PID := 0, RW_PID := 500 }, some
          { dst := 500
            msg :=
              { serviceSig := 0, resourceInfoID := 1
                flags := 0, pad := 0, u0 := 0, u1 := 0, u2 := 0 }
            status := s }) ∧
      (Kernel.allLive.nlmsg_new = true → Kernel.allLive.nlmsg_put = true →
        0 ≤ Kernel.allLive.nlmsg_unicast 500 → s = .delivered) :=
  C4_query_forwarded Kernel.allLive ComChan_Message.zeroed
    { DW_PID := 200, MW_PID := 0, RW_PID := 500 }
    { serviceSig := COM_NETLINK_DW_SIG, resourceInfoID := DISK_RESOURCE_INFO,
      flags := 7, pad := 1, u0 := 11, u1 := 12, u2 := 13 }
    500 (Or.inl ⟨rfl, rfl⟩) rfl (by decide) rfl

/-- C5: a `DISK_RESOURCE_INFO` (or `MEMORY_RESOURCE_INFO`) message with the
resource watcher's signature, when `DW_PID` (or `MW_PID`) is a positive
identifier `d` that `find_get_pid` finds: the relay issues exactly one send,
to `d`, of a record with the kernel's signature, the received resource
identifier, flags 0, and `systemMemory` and `freeMemory` equal to the
received ones; the three slots are left as they were.  The record is
delivered whenever the three netlink calls succeed. -/
theorem C5_info_forwarded (k : Kernel) (stack : ComChan_Message) (st : Registry)
    (m : ComChan_Message) (d : Int) (total free : Nat)
    (hsig : m.serviceSig = COM_NETLINK_RW_SIG)
    (hcase : (m.resourceInfoID = DISK_RESOURCE_INFO ∧ st.DW_PID = d ∧
        m.diskInfo_systemMemory = total ∧ m.diskInfo_freeMemory = free) ∨
      (m.resourceInfoID = MEMORY_RESOURCE_INFO ∧ st.MW_PID = d ∧
        m.memoryInfo_systemMemory = total ∧ m.memoryInfo_freeMemory = free))
    (hd : 0 < d) (hlive : k.find_get_pid d = true) :
    ∃ out, com_chan_recv k stack st (some m) = (st, some out) ∧
      out.dst = d ∧
      out.msg.serviceSig = COM_NETLINK_KERNEL_SIG ∧
      out.msg.resourceInfoID = m.resourceInfoID ∧
      out.msg.flags = 0 ∧
      (m.resourceInfoID = DISK_RESOURCE_INFO →
        out.msg.diskInfo_systemMemory = total ∧ out.msg.diskInfo_freeMemory = free) ∧
      (m.resourceInfoID = MEMORY_RESOURCE_INFO →
        out.msg.memoryInfo_systemMemory = total ∧ out.msg.memoryInfo_freeMemory = free) ∧
      (k.nlmsg_new = true → k.nlmsg_put = true → 0 ≤ k.nlmsg_unicast d →
        out.status = .delivered) := by
  rcases hcase with ⟨hkind, hslot, ht, hf⟩ | ⟨hkind, hslot, ht, hf⟩
  · have hcond : st.DW_PID > 0 ∧ k.find_get_pid st.DW_PID = true := by
      rw [hslot]; exact ⟨hd, hlive⟩
    obtain ⟨s, hs, hok, _⟩ := sendMessage_pos k d
      { stack with
        serviceSig := COM_NETLINK_KERNEL_SIG
        resourceInfoID := DISK_RESOURCE_INFO
        flags := 0
        u0 := m.diskInfo_systemMemory
        u1 := m.diskInfo_freeMemory } hd
    rw [recv_RW_disk k stack st m hsig hkind, if_pos hcond, hslot, hs]
    refine ⟨_, rfl, rfl, rfl, hkind.symm, rfl, fun _ => ⟨ht, hf⟩, ?_, hok⟩
    intro h; rw [hkind] at h; exact absurd h (by decide)
  · have hcond : st.MW_PID > 0 ∧ k.find_get_pid st.MW_PID = true := by
      rw [hslot]; exact ⟨hd, hlive⟩
    obtain ⟨s, hs, hok, _⟩ := sendMessage_pos k d
      { stack with
        serviceSig := COM_NETLINK_KERNEL_SIG
        resourceInfoID := MEMORY_RESOURCE_INFO
        flags := 0
        u0 := m.memoryInfo_systemMemory
        u1 := m.memoryInfo_freeMemory } hd
    rw [recv_RW_memory k stack st m hsig hkind, if_pos hcond, hslot, hs]
    refine ⟨_, rfl, rfl, rfl, hkind.symm, rfl, ?_, fun _ => ⟨ht, hf⟩, hok⟩
    intro h; rw [hkind] at h; exact absurd h (by decide)

/-- C5, at a memory record carrying 8000000 and 3000000 while `MW_PID = 300`. -/
theorem C5_info_forwarded_witness :
    ∃ out, com_chan_recv Kernel.allLive ComChan_Message.zeroed
        { DW_PID := 200, MW_PID := 300, RW_PID := 500 }
        (some (resourceInfo MEMORY_RESOURCE_INFO 8000000 3000000)) =
        ({ DW_PID := 200, MW_PID := 300, RW_PID := 500 }, some out) ∧
      out.dst = 300 ∧ out.msg.serviceSig = 0 ∧ out.msg.resourceInfoID = 2 ∧
      out.msg.flags = 0 ∧
      out.msg.memoryInfo_systemMemory = 8000000 ∧ out.msg.memoryInfo_freeMemory = 3000000 ∧
      out.status = .delivered := by
  obtain ⟨out, h1, h2, h3, h4, h5, _, h7, h8⟩ :=
    C5_info_forwarded Kernel.allLive ComChan_Message.zeroed
      { DW_PID := 200, MW_PID := 300, RW_PID := 500 }
      (resourceInfo MEMORY_RESOURCE_INFO 8000000 3000000) 300 8000000 3000000 rfl
      (Or.inr ⟨rfl, rfl, rfl, rfl⟩) (by decide) rfl
  exact ⟨out, h1, h2, h3, h4, h5, (h7 rfl).1, (h7 rfl).2, h8 rfl rfl (by decide)⟩

/-- C6: when `RW_PID` is 0, a `DISK_RESOURCE_INFO` message with the disk
watcher's signature sends nothing and leaves the three slots as they were. -/
theorem C6_query_without_provider (k : Kernel) (stack : ComChan_Message) (st : Registry)
    (m : ComChan_Message)
    (hsig : m.serviceSig = COM_NETLINK_DW_SIG)
    (hkind : m.resourceInfoID = DISK_RESOURCE_INFO)
    (hempty : st.RW_PID = 0) :
    com_chan_recv k stack st (some m) = (st, none) := by
  have hcond : ¬ (st.RW_PID > 0 ∧ k.find_get_pid st.RW_PID = true) := by
    rw [hempty]; simp
  rw [recv_DW_disk k stack st m hsig hkind, if_neg hcond]
  cases st
  simp only at hempty
  simp [hempty]

/-- C6, at the registry holding only a disk watcher. -/
theorem C6_query_without_provider_witness :
    com_chan_recv Kernel.allLive ComChan_Message.zeroed
        { DW_PID := 200, MW_PID := 300, RW_PID := 0 }
        (some (query COM_NETLINK_DW_SIG DISK_RESOURCE_INFO)) =
      ({ DW_PID := 200, MW_PID := 300, RW_PID := 0 }, none) :=
  C6_query_without_provider Kernel.allLive ComChan_Message.zeroed
    { DW_PID := 200, MW_PID := 300, RW_PID := 0 }
    (query COM_NETLINK_DW_SIG DISK_RESOURCE_INFO) rfl rfl rfl

/-- C7: in each forwarding case, when `find_get_pid` does not find the
identifier in the slot that is looked up, that slot is 0 afterwards, the other
two slots are as they were, and nothing is sent.  The slot looked up is
`RW_PID` for a disk watcher's `DISK_RESOURCE_INFO` and a memory watcher's
`MEMORY_RESOURCE_INFO`, `DW_PID` for a resource watcher's
`DISK_RESOURCE_INFO`, and `MW_PID` for a resource watcher's
`MEMORY_RESOURCE_INFO`. -/
theorem C7_check_and_evict (k : Kernel) (stack : ComChan_Message) (st : Registry)
    (m : ComChan_Message) :
    (((m.serviceSig = COM_NETLINK_DW_SIG ∧ m.resourceInfoID = DISK_RESOURCE_INFO) ∨
        (m.serviceSig = COM_NETLINK_MW_SIG ∧ m.resourceInfoID = MEMORY_RESOURCE_INFO)) →
      k.find_get_pid st.RW_PID = false →
      com_chan_recv k stack st (some m) = ({ st with RW_PID := 0 }, none)) ∧
    (m.serviceSig = COM_NETLINK_RW_SIG → m.resourceInfoID = DISK_RESOURCE_INFO →
      k.find_get_pid st.DW_PID = false →
      com_chan_recv k stack st (some m) = ({ st with DW_PID := 0 }, none)) ∧
    (m.serviceSig = COM_NETLINK_RW_SIG → m.resourceInfoID = MEMORY_RESOURCE_INFO →
      k.find_get_pid st.MW_PID = false →
      com_chan_recv k stack st (some m) = ({ st with MW_PID := 0 }, none)) := by
  refine ⟨?_, ?_, ?_⟩
  · rintro (⟨hsig, hkind⟩ | ⟨hsig, hkind⟩) hdead
    · rw [recv_DW_disk k stack st m hsig hkind, if_neg (by simp [hdead])]
    · rw [recv_MW_memory k stack st m hsig hkind, if_neg (by simp [hdead])]
  · intro hsig hkind hdead
    rw [recv_RW_disk k stack st m hsig hkind, if_neg (by simp [hdead])]
  · intro hsig hkind hdead
    rw [recv_RW_memory k stack st m hsig hkind, if_neg (by simp [hdead])]

/-- C7, at the registry `DW_PID = 200`, `MW_PID = 300`, `RW_PID = 500` with no
identifier live, for each of the four forwarding cases. -/
theorem C7_check_and_evict_witness :
    com_chan_recv Kernel.noneLive ComChan_Message.zeroed
        { DW_PID := 200, MW_PID := 300, RW_PID := 500 }
        (some (query COM_NETLINK_DW_SIG DISK_RESOURCE_INFO)) =
        ({ DW_PID := 200, MW_PID := 300, RW_PID := 0 }, none) ∧
      com_chan_recv Kernel.noneLive ComChan_Message.zeroed
        { DW_PID := 200, MW_PID := 300, RW_PID := 500 }
        (some (query COM_NETLINK_MW_SIG MEMORY_RESOURCE_INFO)) =
        ({ DW_PID := 200, MW_PID := 300, RW_PID := 0 }, none) ∧
      com_chan_recv Kernel.noneLive ComChan_Message.zeroed
        { DW_PID := 200, MW_PID := 300, RW_PID := 500 }
        (some (resourceInfo DISK_RESOURCE_INFO 1000000 400000)) =
        ({ DW_PID := 0, MW_PID := 300, RW_PID := 500 }, none) ∧
      com_chan_recv Kernel.noneLive ComChan_Message.zeroed
        { DW_PID := 200, MW_PID := 300, RW_PID := 500 }
        (some (resourceInfo MEMORY_RESOURCE_INFO 1000000 400000)) =
        ({ DW_PID := 200, MW_PID := 0, RW_PID := 500 }, none) :=
  ⟨(C7_check_and_evict Kernel.noneLive ComChan_Message.zeroed
      { DW_PID := 200, MW_PID := 300, RW_PID := 500 }
      (query COM_NETLINK_DW_SIG DISK_RESOURCE_INFO)).1 (Or.inl ⟨rfl, rfl⟩) rfl,
   (C7_check_and_evict Kernel.noneLive ComChan_Message.zeroed
      { DW_PID := 200, MW_PID := 300, RW_PID := 500 }
      (query COM_NETLINK_MW_SIG MEMORY_RESOURCE_INFO)).1 (Or.inr ⟨rfl, rfl⟩) rfl,
   (C7_check_and_evict Kernel.noneLive ComChan_Message.zeroed
      { DW_PID := 200, MW_PID := 300, RW_PID := 500 }
      (resourceInfo DISK_RESOURCE_INFO 1000000 400000)).2.1 rfl rfl rfl,
   (C7_check_and_evict Kernel.noneLive ComChan_Message.zeroed
      { DW_PID := 200, MW_PID := 300, RW_PID := 500 }
      (resourceInfo MEMORY_RESOURCE_INFO 1000000 400000)).2.2 rfl rfl rfl⟩

/-! ## A failed send -/

/-- C8 (counterexample): with `RW_PID = 500` live and `nlmsg_unicast` returning
an error, a disk watcher's query is handed to the transport for 500 and
fails, yet `RW_PID` is still 500 afterwards, not 0; and a following
announcement of the resource watcher carrying 600 is not stored. -/
theorem C8_send_failure_counterexample :
    Kernel.sendFails.find_get_pid 500 = true ∧ Kernel.sendFails.nlmsg_unicast 500 < 0 ∧
      (com_chan_recv Kernel.sendFails ComChan_Message.zeroed
        { DW_PID := 200, MW_PID := 0, RW_PID := 500 }
        (some (query COM_NETLINK_DW_SIG DISK_RESOURCE_INFO))).2 =
        some { dst := 500, msg := POPULATE_COM_CHAN_QUERY DISK_RESOURCE_INFO,
               status := .unicastFailed } ∧
      (com_chan_recv Kernel.sendFails ComChan_Message.zeroed
        { DW_PID := 200, MW_PID := 0, RW_PID := 500 }
        (some (query COM_NETLINK_DW_SIG DISK_RESOURCE_INFO))).1.RW_PID ≠ 0 ∧
      (com_chan_recv Kernel.sendFails ComChan_Message.zeroed
        (com_chan_recv Kernel.sendFails ComChan_Message.zeroed
          { DW_PID := 200, MW_PID := 0, RW_PID := 500 }
          (some (query COM_NETLINK_DW_SIG DISK_RESOURCE_INFO))).1
        (some (announcement COM_NETLINK_RW_SIG 600))).1.RW_PID ≠ 600 := by
  decide

/-- C8 (amended): in each forwarding case in which the slot looked up holds a
positive live identifier `d` and `nlmsg_unicast` to `d` returns an error, the
relay issues one send, to `d`, which is not delivered, and the three slots
are left as they were: the destination slot still holds `d`.  A
following announcement of the resource watcher is then stored only if
`find_get_pid` no longer finds `d`. -/
theorem C8_send_failure_keeps_slot (k : Kernel) (stack : ComChan_Message) (st : Registry)
    (m : ComChan_Message) (d : Int)
    (hcase :
      (((m.serviceSig = COM_NETLINK_DW_SIG ∧ m.resourceInfoID = DISK_RESOURCE_INFO) ∨
          (m.serviceSig = COM_NETLINK_MW_SIG ∧ m.resourceInfoID = MEMORY_RESOURCE_INFO)) ∧
        st.RW_PID = d) ∨
      (m.serviceSig = COM_NETLINK_RW_SIG ∧ m.resourceInfoID = DISK_RESOURCE_INFO ∧
        st.DW_PID = d) ∨
      (m.serviceSig = COM_NETLINK_RW_SIG ∧ m.resourceInfoID = MEMORY_RESOURCE_INFO ∧
        st.MW_PID = d))
    (hd : 0 < d) (hlive : k.find_get_pid d = true) (hfail : k.nlmsg_unicast d < 0) :
    (∃ out, com_chan_recv k stack st (some m) = (st, some out) ∧
        out.dst = d ∧ out.status ≠ .delivered) ∧
      ∀ (k2 : Kernel) (stack2 a : ComChan_Message),
        a.serviceSig = COM_NETLINK_RW_SIG → a.resourceInfoID = SERVICE_RESOURCE_INFO →
        st.RW_PID = d →
        (com_chan_recv k2 stack2 (com_chan_recv k stack st (some m)).1 (some a)).1.RW_PID =
          if k2.find_get_pid d = false then toInt32 a.serviceInfo_servicePID else d := by
  have key : ∃ out, com_chan_recv k stack st (some m) = (st, some out) ∧
      out.dst = d ∧ out.status ≠ .delivered := by
    rcases hcase with ⟨hq, hslot⟩ | ⟨hsig, hkind, hslot⟩ | ⟨hsig, hkind, hslot⟩
    · have hcond : st.RW_PID > 0 ∧ k.find_get_pid st.RW_PID = true := by
        rw [hslot]; exact ⟨hd, hlive⟩
      rcases hq with ⟨hsig, hkind⟩ | ⟨hsig, hkind⟩
      · obtain ⟨s, hs, _, hbad⟩ :=
          sendMessage_pos k d (POPULATE_COM_CHAN_QUERY DISK_RESOURCE_INFO) hd
        rw [recv_DW_disk k stack st m hsig hkind, if_pos hcond, hslot, hs]
        exact ⟨_, rfl, rfl, hbad hfail⟩
      · obtain ⟨s, hs, _, hbad⟩ :=
          sendMessage_pos k d (POPULATE_COM_CHAN_QUERY MEMORY_RESOURCE_INFO) hd
        rw [recv_MW_memory k stack st m hsig hkind, if_pos hcond, hslot, hs]
        exact ⟨_, rfl, rfl, hbad hfail⟩
    · have hcond : st.DW_PID > 0 ∧ k.find_get_pid st.DW_PID = true := by
        rw [hslot]; exact ⟨hd, hlive⟩
      obtain ⟨s, hs, _, hbad⟩ := sendMessage_pos k d
        { stack with
          serviceSig := COM_NETLINK_KERNEL_SIG
          resourceInfoID := DISK_RESOURCE_INFO
          flags := 0
          u0 := m.diskInfo_systemMemory
          u1 := m.diskInfo_freeMemory } hd
      rw [recv_RW_disk k stack st m hsig hkind, if_pos hcond, hslot, hs]
      exact ⟨_, rfl, rfl, hbad hfail⟩
    · have hcond : st.MW_PID > 0 ∧ k.find_get_pid st.MW_PID = true := by
        rw [hslot]; exact ⟨hd, hlive⟩
      obtain ⟨s, hs, _, hbad⟩ := sendMessage_pos k d
        { stack with
          serviceSig := COM_NETLINK_KERNEL_SIG
          resourceInfoID := MEMORY_RESOURCE_INFO
          flags := 0
          u0 := m.memoryInfo_systemMemory
          u1 := m.memoryInfo_freeMemory } hd
      rw [recv_RW_memory k stack st m hsig hkind, if_pos hcond, hslot, hs]
      exact ⟨_, rfl, rfl, hbad hfail⟩
  refine ⟨key, ?_⟩
  intro k2 stack2 a hsig hkind hslot
  obtain ⟨out, hout, _, _⟩ := key
  have hne : st.RW_PID ≠ 0 := by rw [hslot]; omega
  rw [hout, recv_RW_announce k2 stack2 st a hsig hkind, hslot]
  have hne' : d ≠ 0 := by omega
  by_cases h : k2.find_get_pid d = false
  · simp [h]
  · simp [h, hne', hslot]

/-- C8 (amended), at the registry and kernel of the counterexample. -/
theorem C8_send_failure_keeps_slot_witness :
    (∃ out, com_chan_recv Kernel.sendFails ComChan_Message.zeroed
        { DW_PID := 200, MW_PID := 0, RW_PID := 500 }
        (some (query COM_NETLINK_DW_SIG DISK_RESOURCE_INFO)) =
        ({ DW_PID := 200, MW_PID := 0, RW_PID := 500 }, some out) ∧
        out.dst = 500 ∧ out.status ≠ .delivered) ∧
      (com_chan_recv Kernel.sendFails ComChan_Message.zeroed
        (com_chan_recv Kernel.sendFails ComChan_Message.zeroed
          { DW_PID := 200, MW_PID := 0, RW_PID := 500 }
          (some (query COM_NETLINK_DW_SIG DISK_RESOURCE_INFO))).1
        (some (announcement COM_NETLINK_RW_SIG 600))).1.RW_PID = 500 := by
  have h := C8_send_failure_keeps_slot Kernel.sendFails ComChan_Message.zeroed
    { DW_PID := 200, MW_PID := 0, RW_PID := 500 }
    (query COM_NETLINK_DW_SIG DISK_RESOURCE_INFO) 500
    (Or.inl ⟨Or.inl ⟨rfl, rfl⟩, rfl⟩) (by decide) rfl (by decide)
  refine ⟨h.1, ?_⟩
  rw [h.2 Kernel.sendFails ComChan_Message.zeroed (announcement COM_NETLINK_RW_SIG 600)
    rfl rfl rfl]
  decide

/-! ## The end-to-end scenario -/

/-- C9: from the empty registry, with every identifier live and every netlink
call succeeding: (1) the resource watcher announces 500 and (2) the disk
watcher announces 200, neither of which sends anything; (3) a disk watcher's
`DISK_RESOURCE_INFO` message makes the relay deliver exactly one message, the
cleared record stamped with the kernel signature and `DISK_RESOURCE_INFO`, to
500; (4) a resource watcher's `DISK_RESOURCE_INFO` message carrying 1000000
and 400000 makes it deliver exactly one message to 200, with the kernel
signature, `DISK_RESOURCE_INFO`, flags 0 and those two values.  The registry
ends as `DW_PID = 200`, `MW_PID = 0`, `RW_PID = 500`. -/
theorem C9_end_to_end (k : Kernel) (z1 z2 z3 z4 m1 m2 m3 m4 : ComChan_Message)
    (hlive : ∀ n, k.find_get_pid n = true)
    (hnew : k.nlmsg_new = true) (hput : k.nlmsg_put = true)
    (hsend : ∀ n, 0 ≤ k.nlmsg_unicast n)
    (h1 : m1.serviceSig = COM_NETLINK_RW_SIG ∧ m1.resourceInfoID = SERVICE_RESOURCE_INFO ∧
      m1.serviceInfo_servicePID = 500)
    (h2 : m2.serviceSig = COM_NETLINK_DW_SIG ∧ m2.resourceInfoID = SERVICE_RESOURCE_INFO ∧
      m2.serviceInfo_servicePID = 200)
    (h3 : m3.serviceSig = COM_NETLINK_DW_SIG ∧ m3.resourceInfoID = DISK_RESOURCE_INFO)
    (h4 : m4.serviceSig = COM_NETLINK_RW_SIG ∧ m4.resourceInfoID = DISK_RESOURCE_INFO ∧
      m4.diskInfo_systemMemory = 1000000 ∧ m4.diskInfo_freeMemory = 400000) :
    com_chan_recv k z1 Registry.init (some m1) =
        ({ DW_PID := 0, MW_PID := 0, RW_PID := 500 }, none) ∧
      com_chan_recv k z2 { DW_PID := 0, MW_PID := 0, RW_PID := 500 } (some m2) =
        ({ DW_PID := 200, MW_PID := 0, RW_PID := 500 }, none) ∧
      com_chan_recv k z3 { DW_PID := 200, MW_PID := 0, RW_PID := 500 } (some m3) =
        ({ DW_PID := 200, MW_PID := 0, RW_PID := 500 },
          some { dst := 500
                 msg := { serviceSig := COM_NETLINK_KERNEL_SIG
                          resourceInfoID := DISK_RESOURCE_INFO
                          flags := 0, pad := 0, u0 := 0, u1 := 0, u2 := 0 }
                 status := .delivered }) ∧
      com_chan_recv k z4 { DW_PID := 200, MW_PID := 0, RW_PID := 500 } (some m4) =
        ({ DW_PID := 200, MW_PID := 0, RW_PID := 500 },
          some { dst := 200
                 msg := { z4 with
                          serviceSig := COM_NETLINK_KERNEL_SIG
                          resourceInfoID := DISK_RESOURCE_INFO
                          flags := 0
                          u0 := 1000000
                          u1 := 400000 }
                 status := .delivered }) := by
  obtain ⟨h1s, h1k, h1p⟩ := h1
  obtain ⟨h2s, h2k, h2p⟩ := h2
  obtain ⟨h3s, h3k⟩ := h3
  obtain ⟨h4s, h4k, h4t, h4f⟩ := h4
  have hu500 : ¬ k.nlmsg_unicast 500 < 0 := not_lt.mpr (hsend 500)
  have hu200 : ¬ k.nlmsg_unicast 200 < 0 := not_lt.mpr (hsend 200)
  have e500 : toInt32 500 = 500 := by decide
  have e200 : toInt32 200 = 200 := by decide
  refine ⟨?_, ?_, ?_, ?_⟩
  · rw [recv_RW_announce k z1 _ m1 h1s h1k, h1p, e500]
    simp [Registry.init]
  · rw [recv_DW_announce k z2 _ m2 h2s h2k, h2p, e200]
    simp
  · rw [recv_DW_disk k z3 _ m3 h3s h3k]
    simp [hlive, sendMessage, hnew, hput, hu500, POPULATE_COM_CHAN_QUERY,
      ComChan_Message.zeroed]
  · rw [recv_RW_disk k z4 _ m4 h4s h4k, h4t, h4f]
    simp [hlive, sendMessage, hnew, hput, hu200]

/-- C9, with the records the watchers build and a stack holding zeros. -/
theorem C9_end_to_end_witness :
    com_chan_recv Kernel.allLive ComChan_Message.zeroed Registry.init
        (some (announcement COM_NETLINK_RW_SIG 500)) =
        ({ DW_PID := 0, MW_PID := 0, RW_PID := 500 }, none) ∧
      com_chan_recv Kernel.allLive ComChan_Message.zeroed
        { DW_PID := 0, MW_PID := 0, RW_PID := 500 }
        (some (announcement COM_NETLINK_DW_SIG 200)) =
        ({ DW_PID := 200, MW_PID := 0, RW_PID := 500 }, none) ∧
      com_chan_recv Kernel.allLive ComChan_Message.zeroed
        { DW_PID := 200, MW_PID := 0, RW_PID := 500 }
        (some (query COM_NETLINK_DW_SIG DISK_RESOURCE_INFO)) =
        ({ DW_PID := 200, MW_PID := 0, RW_PID := 500 },
          some { dst := 500
                 msg := { serviceSig := 0, resourceInfoID := 1
                          flags := 0, pad := 0, u0 := 0, u1 := 0, u2 := 0 }
                 status := .delivered }) ∧
      com_chan_recv Kernel.allLive ComChan_Message.zeroed
        { DW_PID := 200, MW_PID := 0, RW_PID := 500 }
        (some (resourceInfo DISK_RESOURCE_INFO 1000000 400000)) =
        ({ DW_PID := 200, MW_PID := 0, RW_PID := 500 },
          some { dst := 200
                 msg := { serviceSig := 0, resourceInfoID := 1
                          flags := 0, pad := 0, u0 := 1000000, u1 := 400000, u2 := 0 }
                 status := .delivered }) :=
  C9_end_to_end Kernel.allLive ComChan_Message.zeroed ComChan_Message.zeroed
    ComChan_Message.zeroed ComChan_Message.zeroed
    (announcement COM_NETLINK_RW_SIG 500) (announcement COM_NETLINK_DW_SIG 200)
    (query COM_NETLINK_DW_SIG DISK_RESOURCE_INFO)
    (resourceInfo DISK_RESOURCE_INFO 1000000 400000)
    (fun _ => rfl) rfl rfl (fun _ => Int.le_refl 0)
    ⟨rfl, rfl, by decide⟩ ⟨rfl, rfl, by decide⟩ ⟨rfl, rfl⟩ ⟨rfl, rfl, rfl, rfl⟩

/-! ## Messages outside the routing table -/

/-- C10: a message whose signature and resource identifier are not one of the
seven handled pairs (disk watcher with `DISK_RESOURCE_INFO` or
`SERVICE_RESOURCE_INFO`; memory watcher with `MEMORY_RESOURCE_INFO` or
`SERVICE_RESOURCE_INFO`; resource watcher with any of the three) changes no
slot and sends nothing. -/
theorem C10_unrouted_is_noop (k : Kernel) (stack : ComChan_Message) (st : Registry)
    (m : ComChan_Message)
    (hDW : m.serviceSig = COM_NETLINK_DW_SIG →
      m.resourceInfoID ≠ DISK_RESOURCE_INFO ∧ m.resourceInfoID ≠ SERVICE_RESOURCE_INFO)
    (hMW : m.serviceSig = COM_NETLINK_MW_SIG →
      m.resourceInfoID ≠ MEMORY_RESOURCE_INFO ∧ m.resourceInfoID ≠ SERVICE_RESOURCE_INFO)
    (hRW : m.serviceSig = COM_NETLINK_RW_SIG →
      m.resourceInfoID ≠ DISK_RESOURCE_INFO ∧ m.resourceInfoID ≠ MEMORY_RESOURCE_INFO ∧
        m.resourceInfoID ≠ SERVICE_RESOURCE_INFO) :
    com_chan_recv k stack st (some m) = (st, none) := by
  unfold com_chan_recv
  by_cases hd : m.serviceSig = COM_NETLINK_DW_SIG
  · obtain ⟨a, b⟩ := hDW hd
    simp [hd, handleDWMessage, a, b]
  · by_cases hm : m.serviceSig = COM_NETLINK_MW_SIG
    · obtain ⟨a, b⟩ := hMW hm
      simp [hm, handleMWMessage, a, b]
    · by_cases hr : m.serviceSig = COM_NETLINK_RW_SIG
      · obtain ⟨a, b, c⟩ := hRW hr
        simp [hr, handleRWMessage, a, b, c]
      · simp [hd, hm, hr]

/-- C10, at the examples of the claim: a disk watcher's memory record, a memory
watcher's disk record, a resource watcher's record of kind 0 and of kind 4,
and a disk record with the kernel signature. -/
theorem C10_unrouted_is_noop_witness :
    com_chan_recv Kernel.allLive ComChan_Message.zeroed
        { DW_PID := 200, MW_PID := 300, RW_PID := 500 }
        (some (query COM_NETLINK_DW_SIG MEMORY_RESOURCE_INFO)) =
        ({ DW_PID := 200, MW_PID := 300, RW_PID := 500 }, none) ∧
      com_chan_recv Kernel.allLive ComChan_Message.zeroed
        { DW_PID := 200, MW_PID := 300, RW_PID := 500 }
        (some (query COM_NETLINK_MW_SIG DISK_RESOURCE_INFO)) =
        ({ DW_PID := 200, MW_PID := 300, RW_PID := 500 }, none) ∧
      com_chan_recv Kernel.noneLive ComChan_Message.zeroed
        { DW_PID := 200, MW_PID := 300, RW_PID := 500 }
        (some (resourceInfo INVALID_RESOURCE_INFO_ID 1 2)) =
        ({ DW_PID := 200, MW_PID := 300, RW_PID := 500 }, none) ∧
      com_chan_recv Kernel.noneLive ComChan_Message.zeroed
        { DW_PID := 200, MW_PID := 300, RW_PID := 500 }
        (some (resourceInfo 4 1 2)) =
        ({ DW_PID := 200, MW_PID := 300, RW_PID := 500 }, none) ∧
      com_chan_recv Kernel.allLive ComChan_Message.zeroed
        { DW_PID := 200, MW_PID := 300, RW_PID := 500 }
        (some (query COM_NETLINK_KERNEL_SIG DISK_RESOURCE_INFO)) =
        ({ DW_PID := 200, MW_PID := 300, RW_PID := 500 }, none) :=
  ⟨C10_unrouted_is_noop _ _ _ (query COM_NETLINK_DW_SIG MEMORY_RESOURCE_INFO)
      (fun _ => by decide) (fun h => absurd h (by decide)) (fun h => absurd h (by decide)),
   C10_unrouted_is_noop _ _ _ (query COM_NETLINK_MW_SIG DISK_RESOURCE_INFO)
      (fun h => absurd h (by decide)) (fun _ => by decide) (fun h => absurd h (by decide)),
   C10_unrouted_is_noop _ _ _ (resourceInfo INVALID_RESOURCE_INFO_ID 1 2)
      (fun h => absurd h (by decide)) (fun h => absurd h (by decide)) (fun _ => by decide),
   C10_unrouted_is_noop _ _ _ (resourceInfo 4 1 2)
      (fun h => absurd h (by decide)) (fun h => absurd h (by decide)) (fun _ => by decide),
   C10_unrouted_is_noop _ _ _ (query COM_NETLINK_KERNEL_SIG DISK_RESOURCE_INFO)
      (fun h => absurd h (by decide)) (fun h => absurd h (by decide))
      (fun h => absurd h (by decide))⟩

/-! ## Buffers that are not messages of the protocol -/

/-- C11: a buffer whose resource identifier is `INVALID_RESOURCE_INFO_ID`, or
whose signature is none of the four known ones, is discarded everywhere: the
relay changes no slot and sends nothing, the memory watcher's
`handleResponseMsg` prints no memory information, and the resource watcher's
`handleRequestMsg` sends nothing; none of the three results depends on any
other field of the buffer. -/
theorem C11_invalid_buffer_discarded (m : ComChan_Message)
    (hbad : m.resourceInfoID = INVALID_RESOURCE_INFO_ID ∨
      (m.serviceSig ≠ COM_NETLINK_DW_SIG ∧ m.serviceSig ≠ COM_NETLINK_MW_SIG ∧
        m.serviceSig ≠ COM_NETLINK_RW_SIG ∧ m.serviceSig ≠ COM_NETLINK_KERNEL_SIG)) :
    (∀ (k : Kernel) (stack : ComChan_Message) (st : Registry),
        com_chan_recv k stack st (some m) = (st, none)) ∧
      (∀ (recvmsg sock : Int) (pNLMsgHdr : Bool),
        (MemoryWatcher.handleResponseMsg recvmsg m sock pNLMsgHdr).2 = none) ∧
      (∀ (sys : ResourceWatcher.Sys) (stack : ComChan_Message) (recvmsg sock : Int)
          (pDstAddr pNLMsgHdr : Bool),
        (ResourceWatcher.handleRequestMsg sys stack recvmsg m sock pDstAddr pNLMsgHdr).2 =
          none) := by
  refine ⟨?_, ?_, ?_⟩
  · intro k stack st
    rcases hbad with hk | ⟨h1, h2, h3, _⟩
    · simp [com_chan_recv, handleDWMessage, handleMWMessage, handleRWMessage, hk]
    · simp [com_chan_recv, h1, h2, h3]
  · intro recvmsg sock pNLMsgHdr
    unfold MemoryWatcher.handleResponseMsg
    rcases hbad with hk | ⟨_, _, _, h4⟩
    · split_ifs <;> simp_all
    · split_ifs <;> simp_all
  · intro sys stack recvmsg sock pDstAddr pNLMsgHdr
    unfold ResourceWatcher.handleRequestMsg
    rcases hbad with hk | ⟨_, _, _, h4⟩
    · split_ifs <;> simp_all
    · split_ifs <;> simp_all

/-- C11, at a record of kind 0 with the resource watcher's signature and at a
valid kind under an unknown signature. -/
theorem C11_invalid_buffer_discarded_witness :
    com_chan_recv Kernel.allLive ComChan_Message.zeroed
        { DW_PID := 200, MW_PID := 300, RW_PID := 500 }
        (some (resourceInfo INVALID_RESOURCE_INFO_ID 7 9)) =
        ({ DW_PID := 200, MW_PID := 300, RW_PID := 500 }, none) ∧
      (MemoryWatcher.handleResponseMsg 56 (query 0xBADC0DE MEMORY_RESOURCE_INFO) 3 true).2 =
        none :=
  ⟨(C11_invalid_buffer_discarded (resourceInfo INVALID_RESOURCE_INFO_ID 7 9)
      (Or.inl rfl)).1 _ _ _,
   (C11_invalid_buffer_discarded (query 0xBADC0DE MEMORY_RESOURCE_INFO)
      (Or.inr (by decide))).2.1 56 3 true⟩

/-! ## The wire form -/

theorem leBytes_length (k n : Nat) : (leBytes k n).length = k := by
  induction k generalizing n with
  | zero => rfl
  | succ k ih => simp [leBytes, ih]

theorem leValue_leBytes (k n : Nat) (h : n < 256 ^ k) : leValue (leBytes k n) = n := by
  induction k generalizing n with
  | zero => simp at h; simp [leBytes, leValue, h]
  | succ k ih =>
    have hq : n / 256 < 256 ^ k := by
      rw [Nat.div_lt_iff_lt_mul (by norm_num)]
      calc n < 256 ^ (k + 1) := h
        _ = 256 ^ k * 256 := by ring
    simp only [leBytes, leValue, ih _ hq]
    omega

theorem toBytes_length (m : ComChan_Message) :
    m.toBytes.length = COM_NETLINK_MAX_PAYLOAD := by
  simp [ComChan_Message.toBytes, leBytes_length]

theorem ofBytes_append (a b c d e f g : List Nat)
    (ha : a.length = 4) (hb : b.length = 4) (hc : c.length = 4) (hd : d.length = 4)
    (he : e.length = 8) (hf : f.length = 8) (hg : g.length = 8) :
    ComChan_Message.ofBytes (a ++ (b ++ (c ++ (d ++ (e ++ (f ++ g)))))) =
      { serviceSig := leValue a, resourceInfoID := leValue b, flags := leValue c,
        pad := leValue d, u0 := leValue e, u1 := leValue f, u2 := leValue g } := by
  have d4 : List.drop 4 (a ++ (b ++ (c ++ (d ++ (e ++ (f ++ g)))))) =
      b ++ (c ++ (d ++ (e ++ (f ++ g)))) := List.drop_left' ha
  have d8 : List.drop 8 (a ++ (b ++ (c ++ (d ++ (e ++ (f ++ g)))))) =
      c ++ (d ++ (e ++ (f ++ g))) := by
    rw [show 8 = 4 + 4 from rfl, ← List.drop_drop, d4, List.drop_left' hb]
  have d12 : List.drop 12 (a ++ (b ++ (c ++ (d ++ (e ++ (f ++ g)))))) =
      d ++ (e ++ (f ++ g)) := by
    rw [show 12 = 8 + 4 from rfl, ← List.drop_drop, d8, List.drop_left' hc]
  have d16 : List.drop 16 (a ++ (b ++ (c ++ (d ++ (e ++ (f ++ g)))))) =
      e ++ (f ++ g) := by
    rw [show 16 = 12 + 4 from rfl, ← List.drop_drop, d12, List.drop_left' hd]
  have d24 : List.drop 24 (a ++ (b ++ (c ++ (d ++ (e ++ (f ++ g)))))) = f ++ g := by
    rw [show 24 = 16 + 8 from rfl, ← List.drop_drop, d16, List.drop_left' he]
  have d32 : List.drop 32 (a ++ (b ++ (c ++ (d ++ (e ++ (f ++ g)))))) = g := by
    rw [show 32 = 24 + 8 from rfl, ← List.drop_drop, d24, List.drop_left' hf]
  unfold ComChan_Message.ofBytes
  rw [d4, d8, d12, d16, d24, d32, List.take_left' ha, List.take_left' hb,
    List.take_left' hc, List.take_left' hd, List.take_left' he, List.take_left' hf,
    List.take_of_length_le (le_of_eq hg)]

/-- C12: for every record whose fields fit their storage, reading the 40 bytes
that `memcpy` copied into the netlink payload back through the record layout
gives the record itself: the signature, the resource identifier, the flags and
the whole union storage, hence every member of every payload variant. -/
theorem C12_wire_round_trip (m : ComChan_Message) (hwf : m.WF) :
    ComChan_Message.ofBytes m.toBytes = m ∧
      m.toBytes.length = COM_NETLINK_MAX_PAYLOAD ∧
      (ComChan_Message.ofBytes m.toBytes).serviceSig = m.serviceSig ∧
      (ComChan_Message.ofBytes m.toBytes).resourceInfoID = m.resourceInfoID ∧
      (ComChan_Message.ofBytes m.toBytes).flags = m.flags ∧
      (ComChan_Message.ofBytes m.toBytes).diskInfo_systemMemory = m.diskInfo_systemMemory ∧
      (ComChan_Message.ofBytes m.toBytes).diskInfo_freeMemory = m.diskInfo_freeMemory ∧
      (ComChan_Message.ofBytes m.toBytes).memoryInfo_systemMemory =
        m.memoryInfo_systemMemory ∧
      (ComChan_Message.ofBytes m.toBytes).memoryInfo_freeMemory = m.memoryInfo_freeMemory ∧
      (ComChan_Message.ofBytes m.toBytes).serviceInfo_servicePID =
        m.serviceInfo_servicePID ∧
      (ComChan_Message.ofBytes m.toBytes).serviceInfo_serviceHostIP4 =
        m.serviceInfo_serviceHostIP4 := by
  obtain ⟨h1, h2, h3, h4, h5, h6, h7⟩ := hwf
  have key : ComChan_Message.ofBytes m.toBytes = m := by
    unfold ComChan_Message.toBytes
    rw [ofBytes_append _ _ _ _ _ _ _ (leBytes_length _ _) (leBytes_length _ _)
      (leBytes_length _ _) (leBytes_length _ _) (leBytes_length _ _) (leBytes_length _ _)
      (leBytes_length _ _)]
    rw [leValue_leBytes 4 _ (by norm_num; exact h1), leValue_leBytes 4 _ (by norm_num; exact h2),
      leValue_leBytes 4 _ (by norm_num; exact h3), leValue_leBytes 4 _ (by norm_num; exact h4),
      leValue_leBytes 8 _ (by norm_num; exact h5), leValue_leBytes 8 _ (by norm_num; exact h6),
      leValue_leBytes 8 _ (by norm_num; exact h7)]
  refine ⟨key, toBytes_length m, ?_, ?_, ?_, ?_, ?_, ?_, ?_, ?_, ?_⟩ <;> rw [key]

/-- C12, at the announcement of process 500 whose host text starts `127.0.0.1`. -/
theorem C12_wire_round_trip_witness :
    ComChan_Message.ofBytes
        (ComChan_Message.toBytes
          { serviceSig := COM_NETLINK_RW_SIG, resourceInfoID := SERVICE_RESOURCE_INFO,
            flags := 0, pad := 0, u0 := 0x2E373231000001F4, u1 := 0x0000312E302E30,
            u2 := 0 }) =
      { serviceSig := COM_NETLINK_RW_SIG, resourceInfoID := SERVICE_RESOURCE_INFO,
        flags := 0, pad := 0, u0 := 0x2E373231000001F4, u1 := 0x0000312E302E30, u2 := 0 } :=
  (C12_wire_round_trip
    { serviceSig := COM_NETLINK_RW_SIG, resourceInfoID := SERVICE_RESOURCE_INFO,
      flags := 0, pad := 0, u0 := 0x2E373231000001F4, u1 := 0x0000312E302E30, u2 := 0 }
    (by decide)).1

/-- C13 (the code at the failing input): with `DW_PID = 200` live and a stack
that holds leftovers, a resource watcher's `DISK_RESOURCE_INFO` record makes
the relay send a record whose padding and union tail are the leftovers, not
zero: bytes 12..15 and 32..39 of the 40 bytes on the wire are what the stack
held. -/
theorem C13_info_message_leaks_stack :
    (com_chan_recv Kernel.allLive dirtyStack { DW_PID := 200, MW_PID := 0, RW_PID := 500 }
        (some (resourceInfo DISK_RESOURCE_INFO 1000000 400000))).2 =
        some { dst := 200
               msg := { serviceSig := 0, resourceInfoID := 1, flags := 0,
                        pad := 0xDEADBEEF, u0 := 1000000, u1 := 400000,
                        u2 := 0x0807060504030201 }
               status := .delivered } ∧
      ((ComChan_Message.toBytes
          { serviceSig := 0, resourceInfoID := 1, flags := 0,
            pad := 0xDEADBEEF, u0 := 1000000, u1 := 400000,
            u2 := 0x0807060504030201 }).drop 12).take 4 = [0xEF, 0xBE, 0xAD, 0xDE] ∧
      ((ComChan_Message.toBytes
          { serviceSig := 0, resourceInfoID := 1, flags := 0,
            pad := 0xDEADBEEF, u0 := 1000000, u1 := 400000,
            u2 := 0x0807060504030201 }).drop 32).take 8 = [1, 2, 3, 4, 5, 6, 7, 8] := by
  decide

/-! ## Where the value of a slot comes from -/

theorem step_DW_PID (e : Event) (st : Registry) :
    (com_chan_recv e.k e.stack st e.pSKB).1.DW_PID = st.DW_PID ∨
      (com_chan_recv e.k e.stack st e.pSKB).1.DW_PID = 0 ∨
      e.announcesPID COM_NETLINK_DW_SIG (com_chan_recv e.k e.stack st e.pSKB).1.DW_PID := by
  obtain ⟨k, stack, _ | m⟩ := e
  · left; rfl
  · simp only [com_chan_recv, handleDWMessage, handleMWMessage, handleRWMessage,
      Event.announcesPID]
    split_ifs <;> simp_all

theorem step_MW_PID (e : Event) (st : Registry) :
    (com_chan_recv e.k e.stack st e.pSKB).1.MW_PID = st.MW_PID ∨
      (com_chan_recv e.k e.stack st e.pSKB).1.MW_PID = 0 ∨
      e.announcesPID COM_NETLINK_MW_SIG (com_chan_recv e.k e.stack st e.pSKB).1.MW_PID := by
  obtain ⟨k, stack, _ | m⟩ := e
  · left; rfl
  · simp only [com_chan_recv, handleDWMessage, handleMWMessage, handleRWMessage,
      Event.announcesPID]
    split_ifs <;> simp_all

theorem step_RW_PID (e : Event) (st : Registry) :
    (com_chan_recv e.k e.stack st e.pSKB).1.RW_PID = st.RW_PID ∨
      (com_chan_recv e.k e.stack st e.pSKB).1.RW_PID = 0 ∨
      e.announcesPID COM_NETLINK_RW_SIG (com_chan_recv e.k e.stack st e.pSKB).1.RW_PID := by
  obtain ⟨k, stack, _ | m⟩ := e
  · left; rfl
  · simp only [com_chan_recv, handleDWMessage, handleMWMessage, handleRWMessage,
      Event.announcesPID]
    split_ifs <;> simp_all

theorem run_append (st : Registry) (xs ys : List Event) :
    run st (xs ++ ys) = run (run st xs) ys := by
  induction xs generalizing st with
  | nil => rfl
  | cons e es ih => simp [run, ih]

theorem run_DW_PID (tr : List Event) (st : Registry) :
    (run st tr).DW_PID = st.DW_PID ∨ (run st tr).DW_PID = 0 ∨
      ∃ e ∈ tr, e.announcesPID COM_NETLINK_DW_SIG (run st tr).DW_PID := by
  induction tr generalizing st with
  | nil => left; rfl
  | cons e es ih =>
    simp only [run]
    rcases ih (com_chan_recv e.k e.stack st e.pSKB).1 with h | h | ⟨x, hx, h⟩
    · rcases step_DW_PID e st with g | g | g
      · left; rw [h, g]
      · right; left; rw [h, g]
      · right; right; exact ⟨e, List.mem_cons_self _ _, by rw [h]; exact g⟩
    · right; left; exact h
    · right; right; exact ⟨x, List.mem_cons_of_mem _ hx, h⟩

theorem run_MW_PID (tr : List Event) (st : Registry) :
    (run st tr).MW_PID = st.MW_PID ∨ (run st tr).MW_PID = 0 ∨
      ∃ e ∈ tr, e.announcesPID COM_NETLINK_MW_SIG (run st tr).MW_PID := by
  induction tr generalizing st with
  | nil => left; rfl
  | cons e es ih =>
    simp only [run]
    rcases ih (com_chan_recv e.k e.stack st e.pSKB).1 with h | h | ⟨x, hx, h⟩
    · rcases step_MW_PID e st with g | g | g
      · left; rw [h, g]
      · right; left; rw [h, g]
      · right; right; exact ⟨e, List.mem_cons_self _ _, by rw [h]; exact g⟩
    · right; left; exact h
    · right; right; exact ⟨x, List.mem_cons_of_mem _ hx, h⟩

theorem run_RW_PID (tr : List Event) (st : Registry) :
    (run st tr).RW_PID = st.RW_PID ∨ (run st tr).RW_PID = 0 ∨
      ∃ e ∈ tr, e.announcesPID COM_NETLINK_RW_SIG (run st tr).RW_PID := by
  induction tr generalizing st with
  | nil => left; rfl
  | cons e es ih =>
    simp only [run]
    rcases ih (com_chan_recv e.k e.stack st e.pSKB).1 with h | h | ⟨x, hx, h⟩
    · rcases step_RW_PID e st with g | g | g
      · left; rw [h, g]
      · right; left; rw [h, g]
      · right; right; exact ⟨e, List.mem_cons_self _ _, by rw [h]; exact g⟩
    · right; left; exact h
    · right; right; exact ⟨x, List.mem_cons_of_mem _ hx, h⟩

theorem announces_of_announcesPID {sig : Nat} {v : Int} {e : Event}
    (h : e.announcesPID sig v) : e.announces sig := by
  obtain ⟨m, h1, h2, h3, _⟩ := h
  exact ⟨m, h1, h2, h3⟩

/-- C14: from the static initialisers, after `com_chan_recv` has run on any
sequence of buffers under any answers of the kernel: a slot is 0 when no
buffer of the sequence was a `SERVICE_RESOURCE_INFO` record with the signature
of the slot's role, and a slot that is not 0 holds the process identifier (as
the `int` it was stored into) of a `SERVICE_RESOURCE_INFO` record of the
sequence with that signature. -/
theorem C14_slot_provenance (tr : List Event) :
    ((∀ e ∈ tr, ¬ e.announces COM_NETLINK_DW_SIG) → (run Registry.init tr).DW_PID = 0) ∧
      ((∀ e ∈ tr, ¬ e.announces COM_NETLINK_MW_SIG) → (run Registry.init tr).MW_PID = 0) ∧
      ((∀ e ∈ tr, ¬ e.announces COM_NETLINK_RW_SIG) → (run Registry.init tr).RW_PID = 0) ∧
      ((run Registry.init tr).DW_PID ≠ 0 →
        ∃ e ∈ tr, e.announcesPID COM_NETLINK_DW_SIG (run Registry.init tr).DW_PID) ∧
      ((run Registry.init tr).MW_PID ≠ 0 →
        ∃ e ∈ tr, e.announcesPID COM_NETLINK_MW_SIG (run Registry.init tr).MW_PID) ∧
      ((run Registry.init tr).RW_PID ≠ 0 →
        ∃ e ∈ tr, e.announcesPID COM_NETLINK_RW_SIG (run Registry.init tr).RW_PID) := by
  have hD : (run Registry.init tr).DW_PID ≠ 0 →
      ∃ e ∈ tr, e.announcesPID COM_NETLINK_DW_SIG (run Registry.init tr).DW_PID := by
    intro hne
    rcases run_DW_PID tr Registry.init with h | h | h
    · exact absurd h hne
    · exact absurd h hne
    · exact h
  have hM : (run Registry.init tr).MW_PID ≠ 0 →
      ∃ e ∈ tr, e.announcesPID COM_NETLINK_MW_SIG (run Registry.init tr).MW_PID := by
    intro hne
    rcases run_MW_PID tr Registry.init with h | h | h
    · exact absurd h hne
    · exact absurd h hne
    · exact h
  have hR : (run Registry.init tr).RW_PID ≠ 0 →
      ∃ e ∈ tr, e.announcesPID COM_NETLINK_RW_SIG (run Registry.init tr).RW_PID := by
    intro hne
    rcases run_RW_PID tr Registry.init with h | h | h
    · exact absurd h hne
    · exact absurd h hne
    · exact h
  refine ⟨?_, ?_, ?_, hD, hM, hR⟩
  · intro hno
    by_contra hne
    obtain ⟨e, he, h⟩ := hD hne
    exact hno e he (announces_of_announcesPID h)
  · intro hno
    by_contra hne
    obtain ⟨e, he, h⟩ := hM hne
    exact hno e he (announces_of_announcesPID h)
  · intro hno
    by_contra hne
    obtain ⟨e, he, h⟩ := hR hne
    exact hno e he (announces_of_announcesPID h)

/-- C14, at the first three buffers of the end-to-end scenario: the memory
watcher never announced, so `MW_PID` is 0, and `RW_PID` holds the identifier
of an announcement of the resource watcher. -/
theorem C14_slot_provenance_witness :
    (run Registry.init scenario).MW_PID = 0 ∧
      ∃ e ∈ scenario, e.announcesPID COM_NETLINK_RW_SIG (run Registry.init scenario).RW_PID := by
  refine ⟨(C14_slot_provenance scenario).2.1 ?_, (C14_slot_provenance scenario).2.2.2.2.2 ?_⟩
  · intro e he
    simp only [scenario, List.mem_cons, List.mem_singleton, List.not_mem_nil, or_false] at he
    rintro ⟨m, h1, h2, _⟩
    rcases he with rfl | rfl | rfl <;> simp at h1 <;> subst h1 <;> revert h2 <;> decide
  · decide

/-! ## One buffer, at most one send -/

/-- C15: one call of `com_chan_recv` issues no send or one send, never two,
whatever the slots, the kernel's answers and the buffer; a send, when there is
one, is for a forwarding record whose looked-up slot is positive and live. -/
theorem C15_at_most_one_send (k : Kernel) (stack : ComChan_Message) (st : Registry)
    (pSKB : Option ComChan_Message) :
    (com_chan_recv k stack st pSKB).2.toList.length ≤ 1 ∧
      ((com_chan_recv k stack st pSKB).2 ≠ none ↔
        ∃ m, pSKB = some m ∧
          ((((m.serviceSig = COM_NETLINK_DW_SIG ∧ m.resourceInfoID = DISK_RESOURCE_INFO) ∨
              (m.serviceSig = COM_NETLINK_MW_SIG ∧
                m.resourceInfoID = MEMORY_RESOURCE_INFO)) ∧
              0 < st.RW_PID ∧ k.find_get_pid st.RW_PID = true) ∨
            (m.serviceSig = COM_NETLINK_RW_SIG ∧ m.resourceInfoID = DISK_RESOURCE_INFO ∧
              0 < st.DW_PID ∧ k.find_get_pid st.DW_PID = true) ∨
            (m.serviceSig = COM_NETLINK_RW_SIG ∧ m.resourceInfoID = MEMORY_RESOURCE_INFO ∧
              0 < st.MW_PID ∧ k.find_get_pid st.MW_PID = true))) := by
  constructor
  · cases (com_chan_recv k stack st pSKB).2 <;> simp
  · have hsend : ∀ (d : Int) (x : ComChan_Message), 0 < d → sendMessage k d (some x) ≠ none := by
      intro d x hd
      obtain ⟨s, hs, _⟩ := sendMessage_pos k d x hd
      rw [hs]; simp
    cases pSKB with
    | none => simp [com_chan_recv]
    | some m =>
      simp only [com_chan_recv, handleDWMessage, handleMWMessage, handleRWMessage]
      split_ifs <;> simp_all

/-! ## The watchers -/

/-- C16: in the resource watcher's `handleRequestMsg`, for a received record
with the kernel signature and kind `DISK_RESOURCE_INFO` (or
`MEMORY_RESOURCE_INFO`): when `getDiskMemoryInfo` (or `getSystemMemoryInfo`)
does not return 0, nothing is sent; when it returns 0 with `total` and `free`,
exactly one record is handed to `sendmsg`, with the resource watcher's
signature, the same kind, flags 0, and `systemMemory = total`,
`freeMemory = free`. -/
theorem C16_probe_gates_response (sys : ResourceWatcher.Sys) (stack rx : ComChan_Message)
    (recvmsg sock : Int)
    (hsig : rx.serviceSig = COM_NETLINK_KERNEL_SIG) (hsock : 0 < sock)
    (hrecv : 0 ≤ recvmsg) :
    (rx.resourceInfoID = DISK_RESOURCE_INFO →
      ((ResourceWatcher.getDiskMemoryInfo sys
          (some { systemMemory := stack.u0, freeMemory := stack.u1 })).1 ≠ 0 →
        ResourceWatcher.handleRequestMsg sys stack recvmsg rx sock true true =
          (recvmsg, none)) ∧
      (∀ total free : Nat,
        ResourceWatcher.getDiskMemoryInfo sys
            (some { systemMemory := stack.u0, freeMemory := stack.u1 }) =
          (0, some { systemMemory := total, freeMemory := free }) →
        ResourceWatcher.handleRequestMsg sys stack recvmsg rx sock true true =
          (recvmsg, some
            { stack with
              serviceSig := COM_NETLINK_RW_SIG
              resourceInfoID := DISK_RESOURCE_INFO
              flags := 0
              u0 := total
              u1 := free }))) ∧
    (rx.resourceInfoID = MEMORY_RESOURCE_INFO →
      ((ResourceWatcher.getSystemMemoryInfo sys
          (some { systemMemory := stack.u0, freeMemory := stack.u1 })).1 ≠ 0 →
        ResourceWatcher.handleRequestMsg sys stack recvmsg rx sock true true =
          (recvmsg, none)) ∧
      (∀ total free : Nat,
        ResourceWatcher.getSystemMemoryInfo sys
            (some { systemMemory := stack.u0, freeMemory := stack.u1 }) =
          (0, some { systemMemory := total, freeMemory := free }) →
        ResourceWatcher.handleRequestMsg sys stack recvmsg rx sock true true =
          (recvmsg, some
            { stack with
              serviceSig := COM_NETLINK_RW_SIG
              resourceInfoID := MEMORY_RESOURCE_INFO
              flags := 0
              u0 := total
              u1 := free }))) := by
  have hs : ¬ sock ≤ 0 := by omega
  have hr : ¬ recvmsg < 0 := by omega
  refine ⟨fun hk => ⟨?_, ?_⟩, fun hk => ⟨?_, ?_⟩⟩
  · intro hfail
    unfold ResourceWatcher.handleRequestMsg
    simp only [hs, hr, hsig, hk, if_false, if_true]
    generalize ResourceWatcher.getDiskMemoryInfo sys _ = r at hfail ⊢
    obtain ⟨ret, _ | d⟩ := r
    · simp
    · simp at hfail; simp [hfail]
  · intro total free hok
    unfold ResourceWatcher.handleRequestMsg
    simp [hs, hr, hsig, hk, hok, ResourceWatcher.sendMessage]
  · intro hfail
    unfold ResourceWatcher.handleRequestMsg
    simp only [hs, hr, hsig, hk, if_false, if_true]
    generalize ResourceWatcher.getSystemMemoryInfo sys _ = r at hfail ⊢
    obtain ⟨ret, _ | d⟩ := r
    · simp
    · simp at hfail; simp [hfail]
  · intro total free hok
    unfold ResourceWatcher.handleRequestMsg
    simp [hs, hr, hsig, hk, hok, ResourceWatcher.sendMessage]

/-- C16, at a disk request on a system whose `statvfs` fails and on one where
it reports 4096000 bytes of which 1638400 are free. -/
theorem C16_probe_gates_response_witness :
    ResourceWatcher.handleRequestMsg ResourceWatcher.Sys.failing dirtyStack 56
        (POPULATE_COM_CHAN_QUERY DISK_RESOURCE_INFO) 3 true true = (56, none) ∧
      ResourceWatcher.handleRequestMsg ResourceWatcher.Sys.healthy dirtyStack 56
        (POPULATE_COM_CHAN_QUERY DISK_RESOURCE_INFO) 3 true true =
        (56, some
          { dirtyStack with
            serviceSig := COM_NETLINK_RW_SIG
            resourceInfoID := DISK_RESOURCE_INFO
            flags := 0
            u0 := 4096000
            u1 := 1638400 }) :=
  ⟨((C16_probe_gates_response ResourceWatcher.Sys.failing dirtyStack
      (POPULATE_COM_CHAN_QUERY DISK_RESOURCE_INFO) 56 3 rfl (by decide) (by decide)).1
      rfl).1 (by decide),
   ((C16_probe_gates_response ResourceWatcher.Sys.healthy dirtyStack
      (POPULATE_COM_CHAN_QUERY DISK_RESOURCE_INFO) 56 3 rfl (by decide) (by decide)).1
      rfl).2 4096000 1638400 (by decide)⟩

/-- C17: at the head of an iteration of the memory watcher's loop, with the
socket `main` obtained: when `queryTimeout` is before the time read, one
record is handed to `sendmsg`, with the memory watcher's signature, kind
`MEMORY_RESOURCE_INFO`, flags 0 and everything else zero, and `queryTimeout`
becomes the time read after the send plus `RESOURCE_QUERY_TIMEOUT` (5);
otherwise nothing is sent and `queryTimeout` is as it was. -/
theorem C17_periodic_query (sendmsg sock queryTimeout now later : Int) (hsock : 0 < sock) :
    (queryTimeout < now →
      MemoryWatcher.main_query sendmsg sock queryTimeout now later =
        (later + 5, some
          { serviceSig := COM_NETLINK_MW_SIG, resourceInfoID := MEMORY_RESOURCE_INFO,
            flags := 0, pad := 0, u0 := 0, u1 := 0, u2 := 0 })) ∧
    (¬ queryTimeout < now →
      MemoryWatcher.main_query sendmsg sock queryTimeout now later =
        (queryTimeout, none)) := by
  have hs : ¬ sock ≤ 0 := by omega
  constructor
  · intro h
    simp [MemoryWatcher.main_query, MemoryWatcher.sendMessage, h, hs,
      ComChan_Message.zeroed]
  · intro h
    simp [MemoryWatcher.main_query, h]

/-- C17, at a deadline of 100 read at time 101 (the send ends at 102) and read
at time 100. -/
theorem C17_periodic_query_witness :
    MemoryWatcher.main_query 56 3 100 101 102 =
        (107, some
          { serviceSig := COM_NETLINK_MW_SIG, resourceInfoID := MEMORY_RESOURCE_INFO,
            flags := 0, pad := 0, u0 := 0, u1 := 0, u2 := 0 }) ∧
      MemoryWatcher.main_query 56 3 100 100 100 = (100, none) :=
  ⟨(C17_periodic_query 56 3 100 101 102 (by decide)).1 (by decide),
   (C17_periodic_query 56 3 100 100 100 (by decide)).2 (by decide)⟩

/-! ## Frame and safety of the relay -/

/-- C18: (a) a buffer with the disk watcher's signature leaves `MW_PID` as it
was, and a buffer with the memory watcher's signature leaves `DW_PID` as it
was; (b) a `SERVICE_RESOURCE_INFO` buffer changes at most the slot of the role
whose signature it carries: the other two slots keep their values, and with a
signature of no role all three do. -/
theorem C18_frame (k : Kernel) (stack : ComChan_Message) (st : Registry)
    (m : ComChan_Message) :
    (m.serviceSig = COM_NETLINK_DW_SIG →
        (com_chan_recv k stack st (some m)).1.MW_PID = st.MW_PID) ∧
      (m.serviceSig = COM_NETLINK_MW_SIG →
        (com_chan_recv k stack st (some m)).1.DW_PID = st.DW_PID) ∧
      (m.resourceInfoID = SERVICE_RESOURCE_INFO →
        (m.serviceSig = COM_NETLINK_DW_SIG →
          (com_chan_recv k stack st (some m)).1.MW_PID = st.MW_PID ∧
          (com_chan_recv k stack st (some m)).1.RW_PID = st.RW_PID) ∧
        (m.serviceSig = COM_NETLINK_MW_SIG →
          (com_chan_recv k stack st (some m)).1.DW_PID = st.DW_PID ∧
          (com_chan_recv k stack st (some m)).1.RW_PID = st.RW_PID) ∧
        (m.serviceSig = COM_NETLINK_RW_SIG →
          (com_chan_recv k stack st (some m)).1.DW_PID = st.DW_PID ∧
          (com_chan_recv k stack st (some m)).1.MW_PID = st.MW_PID) ∧
        (m.serviceSig ≠ COM_NETLINK_DW_SIG → m.serviceSig ≠ COM_NETLINK_MW_SIG →
          m.serviceSig ≠ COM_NETLINK_RW_SIG →
          (com_chan_recv k stack st (some m)).1 = st)) := by
  refine ⟨?_, ?_, fun hk => ⟨?_, ?_, ?_, ?_⟩⟩
  · intro hs
    simp only [com_chan_recv, handleDWMessage, hs]
    split_ifs <;> simp_all
  · intro hs
    simp only [com_chan_recv, handleMWMessage, hs]
    split_ifs <;> simp_all
  · intro hs
    rw [recv_DW_announce k stack st m hs hk]
    split_ifs <;> simp
  · intro hs
    rw [recv_MW_announce k stack st m hs hk]
    split_ifs <;> simp
  · intro hs
    rw [recv_RW_announce k stack st m hs hk]
    split_ifs <;> simp
  · intro h1 h2 h3
    simp [com_chan_recv, h1, h2, h3]

/-- C18, at a disk watcher's query that evicts a dead resource watcher and at a
memory watcher's announcement. -/
theorem C18_frame_witness :
    (com_chan_recv Kernel.noneLive ComChan_Message.zeroed
        { DW_PID := 200, MW_PID := 300, RW_PID := 500 }
        (some (query COM_NETLINK_DW_SIG DISK_RESOURCE_INFO))).1.MW_PID = 300 ∧
      ((com_chan_recv Kernel.allLive ComChan_Message.zeroed
        { DW_PID := 200, MW_PID := 300, RW_PID := 500 }
        (some (announcement COM_NETLINK_MW_SIG 301))).1.DW_PID = 200 ∧
       (com_chan_recv Kernel.allLive ComChan_Message.zeroed
        { DW_PID := 200, MW_PID := 300, RW_PID := 500 }
        (some (announcement COM_NETLINK_MW_SIG 301))).1.RW_PID = 500) :=
  ⟨(C18_frame Kernel.noneLive ComChan_Message.zeroed
      { DW_PID := 200, MW_PID := 300, RW_PID := 500 }
      (query COM_NETLINK_DW_SIG DISK_RESOURCE_INFO)).1 rfl,
   ((C18_frame Kernel.allLive ComChan_Message.zeroed
      { DW_PID := 200, MW_PID := 300, RW_PID := 500 }
      (announcement COM_NETLINK_MW_SIG 301)).2.2 rfl).2.1 rfl⟩

theorem recv_DW_other (k : Kernel) (stack : ComChan_Message) (st : Registry)
    (m : ComChan_Message) (hs : m.serviceSig = COM_NETLINK_DW_SIG)
    (hk : m.resourceInfoID ≠ DISK_RESOURCE_INFO) :
    (com_chan_recv k stack st (some m)).2 = none := by
  simp only [com_chan_recv, handleDWMessage, hs, if_true, if_neg hk]
  split_ifs <;> rfl

theorem recv_MW_other (k : Kernel) (stack : ComChan_Message) (st : Registry)
    (m : ComChan_Message) (hs : m.serviceSig = COM_NETLINK_MW_SIG)
    (hk : m.resourceInfoID ≠ MEMORY_RESOURCE_INFO) :
    (com_chan_recv k stack st (some m)).2 = none := by
  have h1 : ¬ COM_NETLINK_MW_SIG = COM_NETLINK_DW_SIG := by decide
  simp only [com_chan_recv, handleMWMessage, hs, if_true, if_neg hk, if_neg h1]
  split_ifs <;> rfl

theorem recv_RW_other (k : Kernel) (stack : ComChan_Message) (st : Registry)
    (m : ComChan_Message) (hs : m.serviceSig = COM_NETLINK_RW_SIG)
    (hk : m.resourceInfoID ≠ DISK_RESOURCE_INFO)
    (hk2 : m.resourceInfoID ≠ MEMORY_RESOURCE_INFO) :
    (com_chan_recv k stack st (some m)).2 = none := by
  have h1 : ¬ COM_NETLINK_RW_SIG = COM_NETLINK_DW_SIG := by decide
  have h2 : ¬ COM_NETLINK_RW_SIG = COM_NETLINK_MW_SIG := by decide
  simp only [com_chan_recv, handleRWMessage, hs, if_true, if_neg hk, if_neg hk2, if_neg h1,
    if_neg h2]
  split_ifs <;> rfl

theorem sendMessage_some (k : Kernel) (d : Int) (x : ComChan_Message) (o : Outbound)
    (h : sendMessage k d (some x) = some o) : 0 < d ∧ o.dst = d ∧ o.msg = x := by
  unfold sendMessage at h
  by_cases hd : d ≤ 0
  · simp [hd] at h
  · simp only [hd, if_false] at h
    refine ⟨by omega, ?_⟩
    split_ifs at h <;> (simp at h; subst h; exact ⟨rfl, rfl⟩)

theorem toInt32_neg {p : Nat} (h1 : 2 ^ 31 ≤ p) (h2 : p < 2 ^ 32) : toInt32 p < 0 := by
  have h32 : p % 2 ^ 32 = p := Nat.mod_eq_of_lt h2
  unfold toInt32
  rw [h32, if_neg (by omega)]
  omega

/-- C19: a send the relay issues goes to a strictly positive identifier that
`find_get_pid` found in that call and that is the value, before the call, of
the slot looked up (`RW_PID` for a query, `DW_PID` or `MW_PID` for a
resource record).  A looked-up slot that is not positive is never a
destination: the call sends nothing and sets that slot to 0.  A process
identifier from 2^31 up is stored as a negative `int`. -/
theorem C19_destination_is_live_slot (k : Kernel) (stack : ComChan_Message) (st : Registry)
    (m : ComChan_Message) :
    (∀ o, (com_chan_recv k stack st (some m)).2 = some o →
        0 < o.dst ∧ k.find_get_pid o.dst = true ∧
        ((((m.serviceSig = COM_NETLINK_DW_SIG ∧ m.resourceInfoID = DISK_RESOURCE_INFO) ∨
            (m.serviceSig = COM_NETLINK_MW_SIG ∧ m.resourceInfoID = MEMORY_RESOURCE_INFO)) ∧
            o.dst = st.RW_PID) ∨
          (m.serviceSig = COM_NETLINK_RW_SIG ∧ m.resourceInfoID = DISK_RESOURCE_INFO ∧
            o.dst = st.DW_PID) ∨
          (m.serviceSig = COM_NETLINK_RW_SIG ∧ m.resourceInfoID = MEMORY_RESOURCE_INFO ∧
            o.dst = st.MW_PID))) ∧
      (((m.serviceSig = COM_NETLINK_DW_SIG ∧ m.resourceInfoID = DISK_RESOURCE_INFO) ∨
          (m.serviceSig = COM_NETLINK_MW_SIG ∧ m.resourceInfoID = MEMORY_RESOURCE_INFO)) →
        st.RW_PID ≤ 0 →
        com_chan_recv k stack st (some m) = ({ st with RW_PID := 0 }, none)) ∧
      (m.serviceSig = COM_NETLINK_RW_SIG → m.resourceInfoID = DISK_RESOURCE_INFO →
        st.DW_PID ≤ 0 →
        com_chan_recv k stack st (some m) = ({ st with DW_PID := 0 }, none)) ∧
      (m.serviceSig = COM_NETLINK_RW_SIG → m.resourceInfoID = MEMORY_RESOURCE_INFO →
        st.MW_PID ≤ 0 →
        com_chan_recv k stack st (some m) = ({ st with MW_PID := 0 }, none)) ∧
      (∀ p : Nat, 2 ^ 31 ≤ p → p < 2 ^ 32 → toInt32 p < 0) := by
  refine ⟨?_, ?_, ?_, ?_, fun p h1 h2 => toInt32_neg h1 h2⟩
  · intro o ho
    by_cases hD : m.serviceSig = COM_NETLINK_DW_SIG
    · by_cases hk : m.resourceInfoID = DISK_RESOURCE_INFO
      · rw [recv_DW_disk k stack st m hD hk] at ho
        by_cases hc : st.RW_PID > 0 ∧ k.find_get_pid st.RW_PID = true
        · rw [if_pos hc] at ho
          obtain ⟨h1, h2, _⟩ := sendMessage_some k _ _ o ho
          exact ⟨h2 ▸ h1, h2 ▸ hc.2, Or.inl ⟨Or.inl ⟨hD, hk⟩, h2⟩⟩
        · rw [if_neg hc] at ho; simp at ho
      · rw [recv_DW_other k stack st m hD hk] at ho; simp at ho
    · by_cases hM : m.serviceSig = COM_NETLINK_MW_SIG
      · by_cases hk : m.resourceInfoID = MEMORY_RESOURCE_INFO
        · rw [recv_MW_memory k stack st m hM hk] at ho
          by_cases hc : st.RW_PID > 0 ∧ k.find_get_pid st.RW_PID = true
          · rw [if_pos hc] at ho
            obtain ⟨h1, h2, _⟩ := sendMessage_some k _ _ o ho
            exact ⟨h2 ▸ h1, h2 ▸ hc.2, Or.inl ⟨Or.inr ⟨hM, hk⟩, h2⟩⟩
          · rw [if_neg hc] at ho; simp at ho
        · rw [recv_MW_other k stack st m hM hk] at ho; simp at ho
      · by_cases hR : m.serviceSig = COM_NETLINK_RW_SIG
        · by_cases hk : m.resourceInfoID = DISK_RESOURCE_INFO
          · rw [recv_RW_disk k stack st m hR hk] at ho
            by_cases hc : st.DW_PID > 0 ∧ k.find_get_pid st.DW_PID = true
            · rw [if_pos hc] at ho
              obtain ⟨h1, h2, _⟩ := sendMessage_some k _ _ o ho
              exact ⟨h2 ▸ h1, h2 ▸ hc.2, Or.inr (Or.inl ⟨hR, hk, h2⟩)⟩
            · rw [if_neg hc] at ho; simp at ho
          · by_cases hk2 : m.resourceInfoID = MEMORY_RESOURCE_INFO
            · rw [recv_RW_memory k stack st m hR hk2] at ho
              by_cases hc : st.MW_PID > 0 ∧ k.find_get_pid st.MW_PID = true
              · rw [if_pos hc] at ho
                obtain ⟨h1, h2, _⟩ := sendMessage_some k _ _ o ho
                exact ⟨h2 ▸ h1, h2 ▸ hc.2, Or.inr (Or.inr ⟨hR, hk2, h2⟩)⟩
              · rw [if_neg hc] at ho; simp at ho
            · rw [recv_RW_other k stack st m hR hk hk2] at ho; simp at ho
        · simp [com_chan_recv, hD, hM, hR] at ho
  · rintro (⟨hs, hk⟩ | ⟨hs, hk⟩) hle
    · rw [recv_DW_disk k stack st m hs hk, if_neg (by intro h; omega)]
    · rw [recv_MW_memory k stack st m hs hk, if_neg (by intro h; omega)]
  · intro hs hk hle
    rw [recv_RW_disk k stack st m hs hk, if_neg (by intro h; omega)]
  · intro hs hk hle
    rw [recv_RW_memory k stack st m hs hk, if_neg (by intro h; omega)]

/-- C19, at a disk query while `RW_PID = 500` is live, and at a disk query
while `RW_PID` holds the `int` that 2^31 was stored as. -/
theorem C19_destination_is_live_slot_witness :
    (0 < (500 : Int) ∧ Kernel.allLive.find_get_pid 500 = true) ∧
      com_chan_recv Kernel.allLive ComChan_Message.zeroed
        { DW_PID := 200, MW_PID := 0, RW_PID := toInt32 (2 ^ 31) }
        (some (query COM_NETLINK_DW_SIG DISK_RESOURCE_INFO)) =
        ({ DW_PID := 200, MW_PID := 0, RW_PID := 0 }, none) := by
  refine ⟨?_, ?_⟩
  · have h := (C19_destination_is_live_slot Kernel.allLive ComChan_Message.zeroed
      { DW_PID := 200, MW_PID := 0, RW_PID := 500 }
      (query COM_NETLINK_DW_SIG DISK_RESOURCE_INFO)).1
      { dst := 500, msg := POPULATE_COM_CHAN_QUERY DISK_RESOURCE_INFO, status := .delivered }
      (by decide)
    exact ⟨h.1, h.2.1⟩
  · exact (C19_destination_is_live_slot Kernel.allLive ComChan_Message.zeroed
      { DW_PID := 200, MW_PID := 0, RW_PID := toInt32 (2 ^ 31) }
      (query COM_NETLINK_DW_SIG DISK_RESOURCE_INFO)).2.1 (Or.inl ⟨rfl, rfl⟩) (by decide)

/-! ## Recovery after an eviction -/

theorem recv_evict (k : Kernel) (stack : ComChan_Message) (st : Registry)
    (m : ComChan_Message) :
    (((m.serviceSig = COM_NETLINK_DW_SIG ∧ m.resourceInfoID = DISK_RESOURCE_INFO) ∨
        (m.serviceSig = COM_NETLINK_MW_SIG ∧ m.resourceInfoID = MEMORY_RESOURCE_INFO)) →
      k.find_get_pid st.RW_PID = false →
      com_chan_recv k stack st (some m) = ({ st with RW_PID := 0 }, none)) ∧
    (m.serviceSig = COM_NETLINK_RW_SIG → m.resourceInfoID = DISK_RESOURCE_INFO →
      k.find_get_pid st.DW_PID = false →
      com_chan_recv k stack st (some m) = ({ st with DW_PID := 0 }, none)) ∧
    (m.serviceSig = COM_NETLINK_RW_SIG → m.resourceInfoID = MEMORY_RESOURCE_INFO →
      k.find_get_pid st.MW_PID = false →
      com_chan_recv k stack st (some m) = ({ st with MW_PID := 0 }, none)) := by
  refine ⟨?_, ?_, ?_⟩
  · rintro (⟨hsig, hkind⟩ | ⟨hsig, hkind⟩) hdead
    · rw [recv_DW_disk k stack st m hsig hkind, if_neg (by simp [hdead])]
    · rw [recv_MW_memory k stack st m hsig hkind, if_neg (by simp [hdead])]
  · intro hsig hkind hdead
    rw [recv_RW_disk k stack st m hsig hkind, if_neg (by simp [hdead])]
  · intro hsig hkind hdead
    rw [recv_RW_memory k stack st m hsig hkind, if_neg (by simp [hdead])]


/-- C20: let a slot hold an identifier that `find_get_pid` does not find when a
buffer that looks the slot up is processed (a resource watcher's
`DISK_RESOURCE_INFO` for `DW_PID`, its `MEMORY_RESOURCE_INFO` for `MW_PID`, a
disk watcher's `DISK_RESOURCE_INFO` or a memory watcher's
`MEMORY_RESOURCE_INFO` for `RW_PID`).  Then, after any further buffers none of
which is an announcement with the slot's signature, the next announcement
with that signature leaves the slot holding the identifier it carries (as the
`int` it is stored into), whatever the kernel answers then. -/
theorem C20_evict_then_register (st : Registry) (e1 : Event) (mid : List Event) (e2 : Event)
    (m1 a : ComChan_Message)
    (h1 : e1.pSKB = some m1) (h2 : e2.pSKB = some a)
    (hkind : a.resourceInfoID = SERVICE_RESOURCE_INFO) :
    (m1.serviceSig = COM_NETLINK_RW_SIG → m1.resourceInfoID = DISK_RESOURCE_INFO →
        e1.k.find_get_pid st.DW_PID = false →
        (∀ e ∈ mid, ¬ e.announces COM_NETLINK_DW_SIG) →
        a.serviceSig = COM_NETLINK_DW_SIG →
        (run st (e1 :: (mid ++ [e2]))).DW_PID = toInt32 a.serviceInfo_servicePID) ∧
      (m1.serviceSig = COM_NETLINK_RW_SIG → m1.resourceInfoID = MEMORY_RESOURCE_INFO →
        e1.k.find_get_pid st.MW_PID = false →
        (∀ e ∈ mid, ¬ e.announces COM_NETLINK_MW_SIG) →
        a.serviceSig = COM_NETLINK_MW_SIG →
        (run st (e1 :: (mid ++ [e2]))).MW_PID = toInt32 a.serviceInfo_servicePID) ∧
      (((m1.serviceSig = COM_NETLINK_DW_SIG ∧ m1.resourceInfoID = DISK_RESOURCE_INFO) ∨
          (m1.serviceSig = COM_NETLINK_MW_SIG ∧ m1.resourceInfoID = MEMORY_RESOURCE_INFO)) →
        e1.k.find_get_pid st.RW_PID = false →
        (∀ e ∈ mid, ¬ e.announces COM_NETLINK_RW_SIG) →
        a.serviceSig = COM_NETLINK_RW_SIG →
        (run st (e1 :: (mid ++ [e2]))).RW_PID = toInt32 a.serviceInfo_servicePID) := by
  have hrun : run st (e1 :: (mid ++ [e2])) =
      (com_chan_recv e2.k e2.stack
        (run (com_chan_recv e1.k e1.stack st (some m1)).1 mid) (some a)).1 := by
    simp only [run, run_append, h1, h2]
  refine ⟨?_, ?_, ?_⟩
  · intro hs hk hdead hmid ha
    have h0 : (com_chan_recv e1.k e1.stack st (some m1)).1.DW_PID = 0 := by
      rw [((recv_evict e1.k e1.stack st m1).2.1) hs hk hdead]
    have hz : (run (com_chan_recv e1.k e1.stack st (some m1)).1 mid).DW_PID = 0 := by
      rcases run_DW_PID mid (com_chan_recv e1.k e1.stack st (some m1)).1 with h | h | ⟨x, hx, h⟩
      · rw [h, h0]
      · exact h
      · exact absurd (announces_of_announcesPID h) (hmid x hx)
    rw [hrun, recv_DW_announce _ _ _ a ha hkind, if_pos (Or.inl hz)]
  · intro hs hk hdead hmid ha
    have h0 : (com_chan_recv e1.k e1.stack st (some m1)).1.MW_PID = 0 := by
      rw [((recv_evict e1.k e1.stack st m1).2.2) hs hk hdead]
    have hz : (run (com_chan_recv e1.k e1.stack st (some m1)).1 mid).MW_PID = 0 := by
      rcases run_MW_PID mid (com_chan_recv e1.k e1.stack st (some m1)).1 with h | h | ⟨x, hx, h⟩
      · rw [h, h0]
      · exact h
      · exact absurd (announces_of_announcesPID h) (hmid x hx)
    rw [hrun, recv_MW_announce _ _ _ a ha hkind, if_pos (Or.inl hz)]
  · intro hq hdead hmid ha
    have h0 : (com_chan_recv e1.k e1.stack st (some m1)).1.RW_PID = 0 := by
      rw [((recv_evict e1.k e1.stack st m1).1) hq hdead]
    have hz : (run (com_chan_recv e1.k e1.stack st (some m1)).1 mid).RW_PID = 0 := by
      rcases run_RW_PID mid (com_chan_recv e1.k e1.stack st (some m1)).1 with h | h | ⟨x, hx, h⟩
      · rw [h, h0]
      · exact h
      · exact absurd (announces_of_announcesPID h) (hmid x hx)
    rw [hrun, recv_RW_announce _ _ _ a ha hkind, if_pos (Or.inl hz)]

/-- C20, at `DW_PID = 200` dead: a resource watcher's disk record evicts it, a
memory watcher's query follows, and the disk watcher's announcement of 300 is
then stored. -/
theorem C20_evict_then_register_witness :
    (run { DW_PID := 200, MW_PID := 0, RW_PID := 500 }
      ({ k := Kernel.noneLive, stack := ComChan_Message.zeroed,
         pSKB := some (resourceInfo DISK_RESOURCE_INFO 1000000 400000) } ::
        ([{ k := Kernel.allLive, stack := ComChan_Message.zeroed,
            pSKB := some (query COM_NETLINK_MW_SIG MEMORY_RESOURCE_INFO) }] ++
         [{ k := Kernel.allLive, stack := ComChan_Message.zeroed,
            pSKB := some (announcement COM_NETLINK_DW_SIG 300) }]))).DW_PID = 300 := by
  have h := (C20_evict_then_register { DW_PID := 200, MW_PID := 0, RW_PID := 500 }
    { k := Kernel.noneLive, stack := ComChan_Message.zeroed,
      pSKB := some (resourceInfo DISK_RESOURCE_INFO 1000000 400000) }
    [{ k := Kernel.allLive, stack := ComChan_Message.zeroed,
       pSKB := some (query COM_NETLINK_MW_SIG MEMORY_RESOURCE_INFO) }]
    { k := Kernel.allLive, stack := ComChan_Message.zeroed,
      pSKB := some (announcement COM_NETLINK_DW_SIG 300) }
    (resourceInfo DISK_RESOURCE_INFO 1000000 400000) (announcement COM_NETLINK_DW_SIG 300)
    rfl rfl rfl).1 rfl rfl rfl
    (by
      intro e he
      simp only [List.mem_singleton] at he
      subst he
      rintro ⟨m, hm, hs, _⟩
      simp at hm
      subst hm
      revert hs
      decide)
    rfl
  rw [h]
  decide

/-! ## Announcements twice, and fields the relay does not use -/

/-- C21: under the same answers of `find_get_pid`, processing a
`SERVICE_RESOURCE_INFO` record of a role (disk watcher, memory watcher or
resource watcher) a second time right after the first leaves the three slots
as the first processing left them. -/
theorem C21_announcement_idempotent (k1 k2 : Kernel) (stack1 stack2 : ComChan_Message)
    (st : Registry) (m : ComChan_Message)
    (hlive : k2.find_get_pid = k1.find_get_pid)
    (hkind : m.resourceInfoID = SERVICE_RESOURCE_INFO)
    (hrole : m.serviceSig = COM_NETLINK_DW_SIG ∨ m.serviceSig = COM_NETLINK_MW_SIG ∨
      m.serviceSig = COM_NETLINK_RW_SIG) :
    (com_chan_recv k2 stack2 (com_chan_recv k1 stack1 st (some m)).1 (some m)).1 =
      (com_chan_recv k1 stack1 st (some m)).1 := by
  rcases hrole with hs | hs | hs
  · rw [recv_DW_announce k1 stack1 st m hs hkind]
    by_cases h : st.DW_PID = 0 ∨ k1.find_get_pid st.DW_PID = true
    · simp only [h, if_true]
      rw [recv_DW_announce k2 stack2 _ m hs hkind]
      split_ifs <;> rfl
    · simp only [h, if_false]
      rw [recv_DW_announce k2 stack2 _ m hs hkind, hlive, if_neg h]
  · rw [recv_MW_announce k1 stack1 st m hs hkind]
    by_cases h : st.MW_PID = 0 ∨ k1.find_get_pid st.MW_PID = true
    · simp only [h, if_true]
      rw [recv_MW_announce k2 stack2 _ m hs hkind]
      split_ifs <;> rfl
    · simp only [h, if_false]
      rw [recv_MW_announce k2 stack2 _ m hs hkind, hlive, if_neg h]
  · rw [recv_RW_announce k1 stack1 st m hs hkind]
    by_cases h : st.RW_PID = 0 ∨ k1.find_get_pid st.RW_PID = false
    · simp only [h, if_true]
      rw [recv_RW_announce k2 stack2 _ m hs hkind]
      split_ifs <;> rfl
    · simp only [h, if_false]
      rw [recv_RW_announce k2 stack2 _ m hs hkind, hlive, if_neg h]

/-- C21, at the disk watcher announcing 300 twice while `DW_PID = 200` is live
(the first announcement overwrites, the second stores 300 again), and at the
resource watcher announcing 600 twice while `RW_PID = 500` is live (both are
ignored). -/
theorem C21_announcement_idempotent_witness :
    (com_chan_recv Kernel.allLive ComChan_Message.zeroed
        (com_chan_recv Kernel.allLive dirtyStack
          { DW_PID := 200, MW_PID := 0, RW_PID := 500 }
          (some (announcement COM_NETLINK_DW_SIG 300))).1
        (some (announcement COM_NETLINK_DW_SIG 300))).1 =
        { DW_PID := 300, MW_PID := 0, RW_PID := 500 } ∧
      (com_chan_recv Kernel.allLive ComChan_Message.zeroed
        (com_chan_recv Kernel.allLive dirtyStack
          { DW_PID := 200, MW_PID := 0, RW_PID := 500 }
          (some (announcement COM_NETLINK_RW_SIG 600))).1
        (some (announcement COM_NETLINK_RW_SIG 600))).1 =
        { DW_PID := 200, MW_PID := 0, RW_PID := 500 } := by
  refine ⟨?_, ?_⟩
  · rw [C21_announcement_idempotent Kernel.allLive Kernel.allLive dirtyStack
      ComChan_Message.zeroed { DW_PID := 200, MW_PID := 0, RW_PID := 500 }
      (announcement COM_NETLINK_DW_SIG 300) rfl rfl (Or.inl rfl)]
    decide
  · rw [C21_announcement_idempotent Kernel.allLive Kernel.allLive dirtyStack
      ComChan_Message.zeroed { DW_PID := 200, MW_PID := 0, RW_PID := 500 }
      (announcement COM_NETLINK_RW_SIG 600) rfl rfl (Or.inr (Or.inr rfl))]
    decide

theorem recv_noop (k : Kernel) (stack : ComChan_Message) (st : Registry)
    (m : ComChan_Message)
    (hDW : m.serviceSig = COM_NETLINK_DW_SIG →
      m.resourceInfoID ≠ DISK_RESOURCE_INFO ∧ m.resourceInfoID ≠ SERVICE_RESOURCE_INFO)
    (hMW : m.serviceSig = COM_NETLINK_MW_SIG →
      m.resourceInfoID ≠ MEMORY_RESOURCE_INFO ∧ m.resourceInfoID ≠ SERVICE_RESOURCE_INFO)
    (hRW : m.serviceSig = COM_NETLINK_RW_SIG →
      m.resourceInfoID ≠ DISK_RESOURCE_INFO ∧ m.resourceInfoID ≠ MEMORY_RESOURCE_INFO ∧
        m.resourceInfoID ≠ SERVICE_RESOURCE_INFO) :
    com_chan_recv k stack st (some m) = (st, none) := by
  unfold com_chan_recv
  by_cases hd : m.serviceSig = COM_NETLINK_DW_SIG
  · obtain ⟨a, b⟩ := hDW hd
    simp [hd, handleDWMessage, a, b]
  · by_cases hm : m.serviceSig = COM_NETLINK_MW_SIG
    · obtain ⟨a, b⟩ := hMW hm
      simp [hm, handleMWMessage, a, b]
    · by_cases hr : m.serviceSig = COM_NETLINK_RW_SIG
      · obtain ⟨a, b, c⟩ := hRW hr
        simp [hr, handleRWMessage, a, b, c]
      · simp [hd, hm, hr]

theorem sendMessage_declared (k : Kernel) (d : Int) (x y : ComChan_Message)
    (h1 : x.serviceSig = y.serviceSig) (h2 : x.resourceInfoID = y.resourceInfoID)
    (h3 : x.flags = y.flags) (h4 : x.u0 = y.u0) (h5 : x.u1 = y.u1) :
    (sendMessage k d (some x)).map Outbound.declared =
      (sendMessage k d (some y)).map Outbound.declared := by
  unfold sendMessage
  split_ifs <;>
    simp [Outbound.declared, ComChan_Message.diskInfo_systemMemory,
      ComChan_Message.diskInfo_freeMemory, h1, h2, h3, h4, h5]

theorem recv_info_congr (k : Kernel) (d : Int) (st st0 : Registry) (x y : ComChan_Message)
    (h1 : x.serviceSig = y.serviceSig) (h2 : x.resourceInfoID = y.resourceInfoID)
    (h3 : x.flags = y.flags) (h4 : x.u0 = y.u0) (h5 : x.u1 = y.u1) (c : Prop)
    [Decidable c] :
    (if c then (st, sendMessage k d (some x)) else (st0, none)).1 =
        (if c then (st, sendMessage k d (some y)) else (st0, none)).1 ∧
      (if c then (st, sendMessage k d (some x)) else (st0, none)).2.map Outbound.declared =
        (if c then (st, sendMessage k d (some y)) else (st0, none)).2.map Outbound.declared := by
  by_cases hc : c
  · rw [if_pos hc, if_pos hc]
    exact ⟨rfl, sendMessage_declared k d x y h1 h2 h3 h4 h5⟩
  · rw [if_neg hc, if_neg hc]
    exact ⟨rfl, rfl⟩

/-- C22: two buffers with the same signature and resource identifier, the same
process identifier when they are `SERVICE_RESOURCE_INFO` records, and the same
`systemMemory` and `freeMemory` when they are a resource watcher's
`DISK_RESOURCE_INFO` or `MEMORY_RESOURCE_INFO` records, processed from the
same slots under the same kernel answers, leave the same slots and issue the
same send: same destination, outcome, signature, resource identifier, flags,
`systemMemory` and `freeMemory`; when the stack holds the same in both calls,
the whole results are equal.  Nothing else in the buffers (flags, padding,
host text, a query's payload) has any effect. -/
theorem C22_unused_fields (k : Kernel) (stack1 stack2 : ComChan_Message) (st : Registry)
    (m1 m2 : ComChan_Message)
    (hsig : m1.serviceSig = m2.serviceSig)
    (hkind : m1.resourceInfoID = m2.resourceInfoID)
    (hpid : m1.resourceInfoID = SERVICE_RESOURCE_INFO →
      m1.serviceInfo_servicePID = m2.serviceInfo_servicePID)
    (hdisk : m1.serviceSig = COM_NETLINK_RW_SIG → m1.resourceInfoID = DISK_RESOURCE_INFO →
      m1.diskInfo_systemMemory = m2.diskInfo_systemMemory ∧
        m1.diskInfo_freeMemory = m2.diskInfo_freeMemory)
    (hmem : m1.serviceSig = COM_NETLINK_RW_SIG → m1.resourceInfoID = MEMORY_RESOURCE_INFO →
      m1.memoryInfo_systemMemory = m2.memoryInfo_systemMemory ∧
        m1.memoryInfo_freeMemory = m2.memoryInfo_freeMemory) :
    (com_chan_recv k stack1 st (some m1)).1 = (com_chan_recv k stack2 st (some m2)).1 ∧
      (com_chan_recv k stack1 st (some m1)).2.map Outbound.declared =
        (com_chan_recv k stack2 st (some m2)).2.map Outbound.declared ∧
      (stack1 = stack2 →
        com_chan_recv k stack1 st (some m1) = com_chan_recv k stack2 st (some m2)) := by
  have hs2 : ∀ v, m1.serviceSig = v → m2.serviceSig = v := fun v h => hsig ▸ h
  have hk2 : ∀ v, m1.resourceInfoID = v → m2.resourceInfoID = v := fun v h => hkind ▸ h
  have hn2 : ∀ v, m1.resourceInfoID ≠ v → m2.resourceInfoID ≠ v := fun v h => hkind ▸ h
  have hns : ∀ v, m1.serviceSig ≠ v → m2.serviceSig ≠ v := fun v h => hsig ▸ h
  by_cases hD : m1.serviceSig = COM_NETLINK_DW_SIG
  · by_cases hk : m1.resourceInfoID = DISK_RESOURCE_INFO
    · rw [recv_DW_disk k stack1 st m1 hD hk, recv_DW_disk k stack2 st m2 (hs2 _ hD) (hk2 _ hk)]
      exact ⟨rfl, rfl, fun _ => rfl⟩
    · by_cases hk3 : m1.resourceInfoID = SERVICE_RESOURCE_INFO
      · rw [recv_DW_announce k stack1 st m1 hD hk3,
          recv_DW_announce k stack2 st m2 (hs2 _ hD) (hk2 _ hk3), hpid hk3]
        exact ⟨rfl, rfl, fun _ => rfl⟩
      · rw [recv_noop k stack1 st m1 (fun _ => ⟨hk, hk3⟩)
            (fun h => absurd (hD.symm.trans h) (by decide))
            (fun h => absurd (hD.symm.trans h) (by decide)),
          recv_noop k stack2 st m2 (fun _ => ⟨hn2 _ hk, hn2 _ hk3⟩)
            (fun h => absurd ((hs2 _ hD).symm.trans h) (by decide))
            (fun h => absurd ((hs2 _ hD).symm.trans h) (by decide))]
        exact ⟨rfl, rfl, fun _ => rfl⟩
  · by_cases hM : m1.serviceSig = COM_NETLINK_MW_SIG
    · by_cases hk : m1.resourceInfoID = MEMORY_RESOURCE_INFO
      · rw [recv_MW_memory k stack1 st m1 hM hk,
          recv_MW_memory k stack2 st m2 (hs2 _ hM) (hk2 _ hk)]
        exact ⟨rfl, rfl, fun _ => rfl⟩
      · by_cases hk3 : m1.resourceInfoID = SERVICE_RESOURCE_INFO
        · rw [recv_MW_announce k stack1 st m1 hM hk3,
            recv_MW_announce k stack2 st m2 (hs2 _ hM) (hk2 _ hk3), hpid hk3]
          exact ⟨rfl, rfl, fun _ => rfl⟩
        · rw [recv_noop k stack1 st m1 (fun h => absurd h hD) (fun _ => ⟨hk, hk3⟩)
              (fun h => absurd (hM.symm.trans h) (by decide)),
            recv_noop k stack2 st m2 (fun h => absurd h (hns _ hD))
              (fun _ => ⟨hn2 _ hk, hn2 _ hk3⟩)
              (fun h => absurd ((hs2 _ hM).symm.trans h) (by decide))]
          exact ⟨rfl, rfl, fun _ => rfl⟩
    · by_cases hR : m1.serviceSig = COM_NETLINK_RW_SIG
      · by_cases hk : m1.resourceInfoID = DISK_RESOURCE_INFO
        · obtain ⟨ht, hf⟩ := hdisk hR hk
          rw [recv_RW_disk k stack1 st m1 hR hk,
            recv_RW_disk k stack2 st m2 (hs2 _ hR) (hk2 _ hk), ht, hf]
          obtain ⟨a, b⟩ := recv_info_congr k st.DW_PID st { st with DW_PID := 0 }
            { stack1 with
              serviceSig := COM_NETLINK_KERNEL_SIG
              resourceInfoID := DISK_RESOURCE_INFO
              flags := 0
              u0 := m2.diskInfo_systemMemory
              u1 := m2.diskInfo_freeMemory }
            { stack2 with
              serviceSig := COM_NETLINK_KERNEL_SIG
              resourceInfoID := DISK_RESOURCE_INFO
              flags := 0
              u0 := m2.diskInfo_systemMemory
              u1 := m2.diskInfo_freeMemory } rfl rfl rfl rfl rfl
            (st.DW_PID > 0 ∧ k.find_get_pid st.DW_PID = true)
          exact ⟨a, b, fun h => by rw [h]⟩
        · by_cases hk2' : m1.resourceInfoID = MEMORY_RESOURCE_INFO
          · obtain ⟨ht, hf⟩ := hmem hR hk2'
            rw [recv_RW_memory k stack1 st m1 hR hk2',
              recv_RW_memory k stack2 st m2 (hs2 _ hR) (hk2 _ hk2'), ht, hf]
            obtain ⟨a, b⟩ := recv_info_congr k st.MW_PID st { st with MW_PID := 0 }
              { stack1 with
                serviceSig := COM_NETLINK_KERNEL_SIG
                resourceInfoID := MEMORY_RESOURCE_INFO
                flags := 0
                u0 := m2.memoryInfo_systemMemory
                u1 := m2.memoryInfo_freeMemory }
              { stack2 with
                serviceSig := COM_NETLINK_KERNEL_SIG
                resourceInfoID := MEMORY_RESOURCE_INFO
                flags := 0
                u0 := m2.memoryInfo_systemMemory
                u1 := m2.memoryInfo_freeMemory } rfl rfl rfl rfl rfl
              (st.MW_PID > 0 ∧ k.find_get_pid st.MW_PID = true)
            exact ⟨a, b, fun h => by rw [h]⟩
          · by_cases hk3 : m1.resourceInfoID = SERVICE_RESOURCE_INFO
            · rw [recv_RW_announce k stack1 st m1 hR hk3,
                recv_RW_announce k stack2 st m2 (hs2 _ hR) (hk2 _ hk3), hpid hk3]
              exact ⟨rfl, rfl, fun _ => rfl⟩
            · rw [recv_noop k stack1 st m1 (fun h => absurd h hD) (fun h => absurd h hM)
                  (fun _ => ⟨hk, hk2', hk3⟩),
                recv_noop k stack2 st m2 (fun h => absurd h (hns _ hD))
                  (fun h => absurd h (hns _ hM))
                  (fun _ => ⟨hn2 _ hk, hn2 _ hk2', hn2 _ hk3⟩)]
              exact ⟨rfl, rfl, fun _ => rfl⟩
      · rw [recv_noop k stack1 st m1 (fun h => absurd h hD) (fun h => absurd h hM)
            (fun h => absurd h hR),
          recv_noop k stack2 st m2 (fun h => absurd h (hns _ hD))
            (fun h => absurd h (hns _ hM)) (fun h => absurd h (hns _ hR))]
        exact ⟨rfl, rfl, fun _ => rfl⟩

/-- C22, at a disk watcher's query with and without flags and payload bytes,
and at two announcements of process 500 by the resource watcher, one with a
host text and flags and one without. -/
theorem C22_unused_fields_witness :
    com_chan_recv Kernel.allLive dirtyStack { DW_PID := 200, MW_PID := 0, RW_PID := 500 }
        (some { serviceSig := COM_NETLINK_DW_SIG, resourceInfoID := DISK_RESOURCE_INFO,
                flags := 7, pad := 1, u0 := 11, u1 := 12, u2 := 13 }) =
      com_chan_recv Kernel.allLive dirtyStack { DW_PID := 200, MW_PID := 0, RW_PID := 500 }
        (some (query COM_NETLINK_DW_SIG DISK_RESOURCE_INFO)) ∧
    (com_chan_recv Kernel.noneLive dirtyStack { DW_PID := 200, MW_PID := 0, RW_PID := 400 }
        (some { serviceSig := COM_NETLINK_RW_SIG, resourceInfoID := SERVICE_RESOURCE_INFO,
                flags := 9, pad := 0, u0 := 0x2E373231000001F4, u1 := 0x312E302E30,
                u2 := 0 })).1 =
      (com_chan_recv Kernel.noneLive ComChan_Message.zeroed
        { DW_PID := 200, MW_PID := 0, RW_PID := 400 }
        (some (announcement COM_NETLINK_RW_SIG 500))).1 :=
  ⟨(C22_unused_fields Kernel.allLive dirtyStack dirtyStack
      { DW_PID := 200, MW_PID := 0, RW_PID := 500 }
      { serviceSig := COM_NETLINK_DW_SIG, resourceInfoID := DISK_RESOURCE_INFO,
        flags := 7, pad := 1, u0 := 11, u1 := 12, u2 := 13 }
      (query COM_NETLINK_DW_SIG DISK_RESOURCE_INFO) rfl rfl
      (fun h => absurd h (by decide)) (fun h => absurd h (by decide))
      (fun h => absurd h (by decide))).2.2 rfl,
   (C22_unused_fields Kernel.noneLive dirtyStack ComChan_Message.zeroed
      { DW_PID := 200, MW_PID := 0, RW_PID := 400 }
      { serviceSig := COM_NETLINK_RW_SIG, resourceInfoID := SERVICE_RESOURCE_INFO,
        flags := 9, pad := 0, u0 := 0x2E373231000001F4, u1 := 0x312E302E30, u2 := 0 }
      (announcement COM_NETLINK_RW_SIG 500) rfl rfl
      (fun _ => by decide) (fun _ h => absurd h (by decide))
      (fun _ h => absurd h (by decide))).1⟩

end ComChan
